import Mathlib

/-!
Verification development for the kosher-store-backend repository.

The repository is a Node/Express service whose source history contains several
sequential full rewrites of the same server (v1.0 through v5.0).  This file
gives a shallow embedding, in Lean, of the pure computations and the
request-handling control flow of the revisions relevant to the specification:

* JS-primitive models: parseInt, parseFloat, truthiness, substring search,
  number rendering (decimal subset; the inputs handled by the service are
  decimal query strings and dotted version labels).
* the version-sort comparator of the v4.4 revision;
* the device-profile parser (getDeviceInfo) and the Android-version-to-API
  tables of the v4.0 / v4.2 / v4.4 revisions;
* the variant scoring and selection of the v4.0 revision;
* the /override/verify classifier of the v5.0 revision;
* the /proxy-download endpoint of the v4.5 revision;
* the /apk-url handlers of the v4.0, v4.2 and v4.4 revisions.

Network fetches and HTML scraping are modelled as environments: every
axios/gplay call site is an environment field holding the outcome of that call
(either a thrown network error or the data the source extracts from the
response markup).  HTML/regex extraction results are therefore inputs of the
embedding; everything computed from them is translated from the source.
Presentation-only response fields (log text, availableVariants excerpts,
newestVersion echo, contentLengthMB display string) are omitted from the
result records; every field a theorem below mentions is modelled.
-/

namespace JS

/-- JS truthiness of a possibly-null number: null and 0 are falsy. -/
def truthyInt : Option Int → Bool
  | none => false
  | some n => n != 0

/-- JS truthiness of a possibly-null string: null and the empty string are falsy. -/
def truthyStr : Option String → Bool
  | none => false
  | some s => s != ""

/-- JS s || d for a possibly-null string s and a string default d. -/
def orElseStr (o : Option String) (d : String) : String :=
  if truthyStr o then o.getD "" else d

/-- JS s || null for a possibly-null string: normalizes the empty string to null. -/
def orNullStr (o : Option String) : Option String :=
  if truthyStr o then o else none

/-- Numeric value of a list of decimal digit characters. -/
def decDigitsVal (ds : List Char) : Nat :=
  ds.foldl (fun acc c => acc * 10 + (c.toNat - 48)) 0

/-- Leading run of decimal digits, or none when there is no digit. -/
def leadingNat (cs : List Char) : Option Nat :=
  let ds := cs.takeWhile Char.isDigit
  if ds.isEmpty then none else some (decDigitsVal ds)

/-- Model of the JS parseInt builtin on decimal inputs: skip leading
whitespace, optional sign, then the longest prefix of decimal digits; none
models NaN.  (The hexadecimal 0x prefix of parseInt is not modelled; the
service only passes decimal query strings and digit captures.) -/
def parseIntJS (s : String) : Option Int :=
  let cs := s.data.dropWhile Char.isWhitespace
  match cs with
  | '-' :: rest => (leadingNat rest).map (fun n => -(n : Int))
  | '+' :: rest => (leadingNat rest).map (fun n => (n : Int))
  | _ => (leadingNat cs).map (fun n => (n : Int))

/-- Exact value of a JS decimal literal: num / 10 ^ pow.  Comparisons against
small integers are exact for the short decimal strings the service parses, so
this models the float comparisons of the source without rounding error. -/
structure DecNum where
  num : Int
  pow : Nat
  deriving DecidableEq, Repr

/-- a <= x for an integer a and a parsed decimal x. -/
def DecNum.geInt (x : DecNum) (a : Int) : Bool :=
  a * (10 : Int) ^ x.pow ≤ x.num

/-- x < a for a parsed decimal x and an integer a. -/
def DecNum.ltInt (x : DecNum) (a : Int) : Bool :=
  x.num < a * (10 : Int) ^ x.pow

/-- Model of the JS parseFloat builtin on plain decimal inputs (optional sign,
integer part, optional fraction part; no exponent, which the service never
receives); none models NaN. -/
def parseFloatJS (s : String) : Option DecNum :=
  let cs := s.data.dropWhile Char.isWhitespace
  let signed : Bool × List Char :=
    match cs with
    | '-' :: r => (true, r)
    | '+' :: r => (false, r)
    | _ => (false, cs)
  let ip := signed.2.takeWhile Char.isDigit
  let rest := signed.2.dropWhile Char.isDigit
  let fp : List Char :=
    match rest with
    | '.' :: r => r.takeWhile Char.isDigit
    | _ => []
  if ip.isEmpty && fp.isEmpty then none
  else
    let mag : Int := (decDigitsVal ip : Int) * (10 : Int) ^ fp.length + (decDigitsVal fp : Int)
    some { num := if signed.1 then -mag else mag, pow := fp.length }

/-- Boolean substring test on character lists (model of JS String.includes). -/
def containsSub (hay pat : List Char) : Bool :=
  match hay with
  | [] => pat.isEmpty
  | _ :: t => if pat.isPrefixOf hay then true else containsSub t pat

/-- Model of JS s.includes(pat). -/
def strContains (s pat : String) : Bool :=
  containsSub s.data pat.data

/-- Model of JS s.startsWith(pre). -/
def strStartsWith (s pre : String) : Bool :=
  pre.data.isPrefixOf s.data

/-- Decimal digits of a natural number (fuel-driven so that it reduces in the
kernel; fuel is always sufficient at call sites). -/
def natToChars : Nat → Nat → List Char
  | 0, _ => []
  | fuel + 1, n =>
    if n < 10 then [Char.ofNat (48 + n)]
    else natToChars fuel (n / 10) ++ [Char.ofNat (48 + n % 10)]

/-- Decimal rendering of a natural number (model of JS number-to-string). -/
def natToString (n : Nat) : String :=
  ⟨natToChars (n + 1) n⟩

/-- Decimal rendering of an integer (model of JS number-to-string). -/
def intToString (i : Int) : String :=
  if i < 0 then "-" ++ natToString i.natAbs else natToString i.natAbs

/-- Splitting a character list at a separator character (model of the JS
split used on dotted version labels). -/
def splitOnCharList (sep : Char) : List Char → List (List Char)
  | [] => [[]]
  | c :: t =>
    let r := splitOnCharList sep t
    if c = sep then [] :: r
    else
      match r with
      | h :: t2 => (c :: h) :: t2
      | [] => [[c]]

/-- Model of JS s.split for a one-character separator. -/
def splitOnChar (sep : Char) (s : String) : List String :=
  (splitOnCharList sep s.data).map (fun l => ⟨l⟩)

/-- Model of JS Math.round(n / k) for integer n and positive integer k
(exact for the content lengths the service handles). -/
def roundDiv (n k : Int) : Int :=
  (2 * n + k) / (2 * k)

end JS

/-! ## Version comparator (v4.4 revision, findOlderVersionFromApkPure)

The v4.4 revision sorts scraped version entries with the comparator

  (a, b) => compare a.version.split('.').map(Number) with b.version.split('.')
            component-wise, first non-zero diff (partsB[i] || 0) - (partsA[i] || 0)

which this section translates and relates to the specification's reading:
newest first = the lexicographically greater zero-padded integer tuple sorts
earlier. -/

/-- Comparator body of the v4.4 version sort on already-split component
tuples: the first index where the components differ decides, a missing
component counts as 0 (the JS (parts[i] || 0) default); the returned integer
is the first non-zero diff, negative meaning the first argument sorts
earlier. -/
def versionSortCmp : List Nat → List Nat → Int
  | [], [] => 0
  | [], b :: bs => if (b : Int) ≠ 0 then (b : Int) else versionSortCmp [] bs
  | a :: as, [] => if -(a : Int) ≠ 0 then -(a : Int) else versionSortCmp as []
  | a :: as, b :: bs =>
    if (b : Int) - (a : Int) ≠ 0 then (b : Int) - (a : Int) else versionSortCmp as bs

/-- JS Number(c) on one dot-separated component: the empty string is 0, a
pure digit string is its value, anything else is NaN (none). -/
def jsNumberNat (c : String) : Option Nat :=
  if c.data.isEmpty then some 0
  else if c.data.all Char.isDigit then some (JS.decDigitsVal c.data) else none

/-- The component tuple of a version label, as the v4.4 comparator consumes
it: split on dots, Number on each component, with NaN collapsing to 0 at the
comparator's (parts[i] || 0) access. -/
def jsVersionParts (s : String) : List Nat :=
  (JS.splitOnChar '.' s).map (fun c => (jsNumberNat c).getD 0)

/-- A valid dotted version label: every dot-separated component is a plain
decimal numeral.  Returns the integer component tuple. -/
def parseVersionLabel (s : String) : Option (List Nat) :=
  let comps := JS.splitOnChar '.' s
  if comps.all (fun c => !c.data.isEmpty && c.data.all Char.isDigit)
  then some (comps.map (fun c => JS.decDigitsVal c.data)) else none

/-- Right-pad a tuple with zeros to length n (the specification's padding). -/
def padTo (n : Nat) (l : List Nat) : List Nat :=
  l ++ List.replicate (n - l.length) 0

/-- Lexicographic strict greater-than on equal-length tuples: the first
position where the tuples differ decides. -/
def lexGtNat : List Nat → List Nat → Bool
  | a :: as, b :: bs =>
    if a > b then true else if a < b then false else lexGtNat as bs
  | _, _ => false

/-- The specification's order: A is lexicographically greater than B after
right-padding the shorter tuple with zeros. -/
def specLexGtPad (as bs : List Nat) : Bool :=
  lexGtNat (padTo (max as.length bs.length) as) (padTo (max as.length bs.length) bs)

theorem specLexGtPad_nil_nil : specLexGtPad [] [] = false := rfl

theorem specLexGtPad_nil_cons (b : Nat) (bs : List Nat) :
    specLexGtPad [] (b :: bs) = if 0 > b then true else if 0 < b then false else specLexGtPad [] bs := by
  simp only [specLexGtPad, padTo, List.length_nil, List.length_cons, Nat.max_eq_right (Nat.zero_le _),
    List.nil_append, Nat.succ_sub_one, List.replicate_succ, List.append_nil]
  simp [lexGtNat, Nat.sub_zero]

theorem specLexGtPad_cons_nil (a : Nat) (as : List Nat) :
    specLexGtPad (a :: as) [] = if a > 0 then true else if a < 0 then false else specLexGtPad as [] := by
  simp only [specLexGtPad, padTo, List.length_cons, List.length_nil, Nat.max_eq_left (Nat.zero_le _),
    List.nil_append, Nat.succ_sub_one, List.replicate_succ, List.append_nil]
  simp [lexGtNat, Nat.sub_zero]

theorem specLexGtPad_cons_cons (a b : Nat) (as bs : List Nat) :
    specLexGtPad (a :: as) (b :: bs) =
      if a > b then true else if a < b then false else specLexGtPad as bs := by
  simp only [specLexGtPad, padTo, List.length_cons, Nat.succ_max_succ, List.cons_append,
    Nat.succ_sub_succ, lexGtNat, List.append_eq]

/-- Core comparator fact: the v4.4 comparator orders A strictly before B
(negative comparator value) exactly when A's zero-padded component tuple is
lexicographically greater than B's. -/
theorem versionSortCmp_neg_iff (as bs : List Nat) :
    versionSortCmp as bs < 0 ↔ specLexGtPad as bs = true := by
  induction as generalizing bs with
  | nil =>
    induction bs with
    | nil => simp [versionSortCmp, specLexGtPad_nil_nil]
    | cons b bs ih =>
      rw [specLexGtPad_nil_cons]
      by_cases hb : b = 0
      · subst hb; simpa [versionSortCmp] using ih
      · have hb' : (b : Int) ≠ 0 := by exact_mod_cast hb
        simp [versionSortCmp, hb', Nat.pos_of_ne_zero hb]
  | cons a as ih =>
    cases bs with
    | nil =>
      rw [specLexGtPad_cons_nil]
      by_cases ha : a = 0
      · subst ha; simpa [versionSortCmp] using ih []
      · have ha' : -(a : Int) ≠ 0 := by
          simp only [ne_eq, neg_eq_zero]
          exact_mod_cast ha
        simp [versionSortCmp, ha', Nat.pos_of_ne_zero ha]
    | cons b bs =>
      rw [specLexGtPad_cons_cons]
      by_cases hab : a = b
      · subst hab; simpa [versionSortCmp] using ih bs
      · have hab' : (b : Int) - (a : Int) ≠ 0 := by
          intro h
          apply hab
          omega
        simp only [versionSortCmp, hab', if_true, gt_iff_lt]
        constructor
        · intro h
          have : b < a := by omega
          simp [this, Nat.lt_asymm this]
        · intro h
          by_cases hba : b < a
          · omega
          · simp [hba, lt_of_le_of_ne (Nat.le_of_not_lt hba) hab] at h

/-- C4.  For all valid dotted version labels A and B, the v4.4 version
comparator orders A before B (returns a negative value, hence A sorts earlier
= newest first) if and only if A's dot-separated integer component tuple is
lexicographically greater than B's after right-padding the shorter tuple with
zeros. -/
theorem c4_version_comparator (a b : String) (as bs : List Nat)
    (ha : parseVersionLabel a = some as) (hb : parseVersionLabel b = some bs) :
    versionSortCmp (jsVersionParts a) (jsVersionParts b) < 0 ↔ specLexGtPad as bs = true := by
  have hparts : ∀ s ts, parseVersionLabel s = some ts → jsVersionParts s = ts := by
    intro s ts hs
    simp only [parseVersionLabel] at hs
    split at hs
    case isTrue hall =>
      have := Option.some.inj hs
      subst this
      simp only [jsVersionParts]
      apply List.map_congr_left
      intro c hc
      have hc' := List.all_eq_true.mp hall c hc
      have h1 : c.data.isEmpty = false := by
        cases h : c.data.isEmpty <;> simp_all
      have h2 : c.data.all Char.isDigit = true := by
        cases h : c.data.all Char.isDigit <;> simp_all
      simp [jsNumberNat, h1, h2]
    case isFalse => exact absurd hs (by simp)
  rw [hparts a as ha, hparts b bs hb]
  exact versionSortCmp_neg_iff as bs

/-- Witness for C4 at the specification's own example: "1.2024.31" sorts
before "1.2024.3.1" because [1,2024,31] is lexicographically greater than
[1,2024,3,1,0]. -/
theorem c4_version_comparator_witness :
    versionSortCmp (jsVersionParts "1.2024.31") (jsVersionParts "1.2024.3.1") < 0 ↔
      specLexGtPad [1, 2024, 31] [1, 2024, 3, 1] = true :=
  c4_version_comparator "1.2024.31" "1.2024.3.1" [1, 2024, 31] [1, 2024, 3, 1]
    (by decide) (by decide)

/-! ## Network-call outcomes

Every axios/gplay call site in the embedding yields either a thrown error
(timeout, connection refused, or a non-accepted HTTP status, which axios
raises as an exception) or the data the source extracts from the response. -/

inductive NetErr where
  | timeout
  | refused
  | httpStatus (code : Nat)
  deriving DecidableEq, Repr

/-- The error.message string the source interpolates into responses. -/
def NetErr.message : NetErr → String
  | .timeout => "timeout exceeded"
  | .refused => "connect ECONNREFUSED"
  | .httpStatus code => "Request failed with status code " ++ JS.natToString code

/-! ## Link verifier (v5.0 revision, POST /override/verify) -/

namespace V50

/-- Headers of the HEAD response the verifier inspects. -/
structure VerifyHeaders where
  contentLength : Option String
  contentType : Option String
  deriving DecidableEq, Repr

/-- The JSON verdict of POST /override/verify (the display-only
contentLengthMB string is omitted). -/
structure VerifyResult where
  success : Bool
  valid : Option Bool := none
  contentLength : Option Int := none
  contentType : Option String := none
  warnings : List String
  error : Option String := none
  deriving DecidableEq, Repr

/-- The size warning the verifier pushes when the declared length is at most
1 MB (NaN renders as the string NaN, as in JS). -/
def sizeWarning (contentLength : Option Int) : String :=
  "File size (" ++
    (match contentLength with
     | some n => JS.intToString (JS.roundDiv n 1024)
     | none => "NaN") ++ "KB) seems too small for an APK"

/-- The content-type warning the verifier pushes when the type does not look
like an APK. -/
def typeWarning (contentType : String) : String :=
  "Content-Type \"" ++ contentType ++ "\" may not be an APK"

/-- Translation of the body of POST /override/verify: HEAD the URL, read the
declared content length and content type, classify, collect warnings.  A
thrown request error becomes the success=false verdict of the catch clause. -/
def overrideVerify (resp : Except NetErr VerifyHeaders) : VerifyResult :=
  match resp with
  | .error e =>
    { success := false
      error := some e.message
      warnings := ["URL is not accessible or returned an error"] }
  | .ok h =>
    let contentLength := JS.parseIntJS (JS.orElseStr h.contentLength "0")
    let contentType := JS.orElseStr h.contentType ""
    let isValidSize : Bool :=
      match contentLength with
      | some n => decide (n > 1000000)
      | none => false
    let isValidType : Bool :=
      JS.strContains contentType "octet-stream" || JS.strContains contentType "android" ||
        JS.strContains contentType "application/vnd"
    let warnings :=
      (if !isValidSize then [sizeWarning contentLength] else []) ++
        (if !isValidType then [typeWarning contentType] else [])
    { success := true
      valid := some isValidSize
      contentLength := contentLength
      contentType := some contentType
      warnings := warnings }

/-- Specification-side notion: the declared content length exceeds the given
floor (an unparseable declared length never exceeds it). -/
def declaredSizeExceedsFloor (h : VerifyHeaders) (floor : Int) : Bool :=
  match JS.parseIntJS (JS.orElseStr h.contentLength "0") with
  | some n => decide (n > floor)
  | none => false

/-- Specification-side notion: the content type matches an executable-package
or octet-stream pattern. -/
def matchesBinaryPattern (contentType : String) : Bool :=
  JS.strContains contentType "octet-stream" || JS.strContains contentType "android" ||
    JS.strContains contentType "application/vnd"

end V50

/-- C7 counterexample.  A URL whose HEAD response declares 2000000 bytes with
content type text/html — present and matching none of the binary patterns —
is still classified valid by the verifier, contradicting the claim that a
non-matching present content type prevents the valid classification. -/
theorem c7_counterexample :
    (V50.overrideVerify (Except.ok { contentLength := some "2000000", contentType := some "text/html" })).valid
        = some true ∧
      V50.matchesBinaryPattern "text/html" = false := by
  constructor
  · rfl
  · decide

/-- C7 amended.  The verifier classifies a URL as valid if and only if the
declared content length exceeds the 1 MB floor; the content-type pattern does
not participate in the classification and a present non-matching content type
only contributes a warning. -/
theorem c7_amended (h : V50.VerifyHeaders) :
    (V50.overrideVerify (Except.ok h)).valid = some (V50.declaredSizeExceedsFloor h 1000000) ∧
      (V50.matchesBinaryPattern (JS.orElseStr h.contentType "") = false →
        V50.typeWarning (JS.orElseStr h.contentType "") ∈ (V50.overrideVerify (Except.ok h)).warnings) := by
  constructor
  · simp only [V50.overrideVerify, V50.declaredSizeExceedsFloor]
  · intro hmis
    simp only [V50.overrideVerify, V50.matchesBinaryPattern] at hmis ⊢
    rw [hmis]
    simp

/-- Witness for C7 amended at a concrete header pair with a small text/html
body: the verdict is invalid and carries the content-type warning. -/
theorem c7_amended_witness :
    (V50.overrideVerify (Except.ok { contentLength := some "500", contentType := some "text/html" })).valid
        = some (V50.declaredSizeExceedsFloor { contentLength := some "500", contentType := some "text/html" } 1000000) ∧
      V50.typeWarning (JS.orElseStr (some "text/html") "")
        ∈ (V50.overrideVerify (Except.ok { contentLength := some "500", contentType := some "text/html" })).warnings :=
  ⟨(c7_amended _).1, (c7_amended _).2 (by decide)⟩

/-! ## Device-profile parser (v4.2 revision, getDeviceInfo) -/

namespace V42

/-- Raw query parameters of a request (absent parameter = none; the empty
string models an explicitly empty query value). -/
structure Query where
  apiLevel : Option String := none
  arch : Option String := none
  dpi : Option String := none
  androidVersion : Option String := none
  needsOlderVersion : Option String := none
  deriving DecidableEq, Repr

/-- The parsed device profile of the v4.2 revision. -/
structure DeviceInfo where
  apiLevel : Option Int
  arch : Option String
  dpi : Option String
  androidVersion : Option String
  needsOlderVersion : Bool
  deriving DecidableEq, Repr

/-- Translation of parseInt(req.query.apiLevel) || null: NaN and 0 collapse
to null, every other parsed integer (including negative ones) is kept. -/
def parseApiLevel (q : Option String) : Option Int :=
  match q with
  | none => none
  | some s =>
    match JS.parseIntJS s with
    | none => none
    | some n => if n = 0 then none else some n

/-- Translation of getDeviceInfo of the v4.2 revision. -/
def getDeviceInfo (q : Query) : DeviceInfo :=
  { apiLevel := parseApiLevel q.apiLevel
    arch := JS.orNullStr q.arch
    dpi := JS.orNullStr q.dpi
    androidVersion := JS.orNullStr q.androidVersion
    needsOlderVersion := q.needsOlderVersion == some "true" }

/-- Translation of the v4.2 branch condition
needsOlderVersion || (minSdkFromStore && deviceInfo.apiLevel && minSdkFromStore > deviceInfo.apiLevel). -/
def mustFindOlderVersion (needsOlderVersion : Bool) (minSdkFromStore deviceApiLevel : Option Int) : Bool :=
  needsOlderVersion ||
    (JS.truthyInt minSdkFromStore && JS.truthyInt deviceApiLevel &&
      decide (minSdkFromStore.getD 0 > deviceApiLevel.getD 0))

end V42

/-! ## The v4.0 compatibility predicate (isCompatible) -/

namespace V40

/-- Translation of isCompatible of the v4.0 revision: with an unknown device
API level or an unknown app minimum, the check is skipped and the pair is
assumed compatible. -/
def isCompatible (appMinSdk deviceApiLevel : Option Int) : Bool :=
  if !JS.truthyInt deviceApiLevel || !JS.truthyInt appMinSdk then true
  else decide (deviceApiLevel.getD 0 ≥ appMinSdk.getD 0)

end V40

/-- C8 counterexample.  The apiLevel query input -5 is negative, yet the
parsed device profile keeps apiLevel = -5 instead of the null the claim
requires. -/
theorem c8_counterexample : V42.parseApiLevel (some "-5") = some (-5) := by decide

/-- C8 amended.  apiLevel parsing is total and yields null on non-numeric
inputs, on 0 and on an absent parameter, but keeps negative numeric inputs
as their (negative) value; downstream checks treat a null apiLevel as
unknown — the v4.0 compatibility predicate accepts and the v4.2 older-version
branch condition reduces to the explicit request flag — never as API level 0. -/
theorem c8_amended :
    (∀ s : String, JS.parseIntJS s = none → V42.parseApiLevel (some s) = none) ∧
      (∀ s : String, JS.parseIntJS s = some 0 → V42.parseApiLevel (some s) = none) ∧
      V42.parseApiLevel none = none ∧
      V42.parseApiLevel (some "-5") = some (-5) ∧
      (∀ m : Option Int, V40.isCompatible m none = true) ∧
      (∀ (needs : Bool) (m : Option Int), V42.mustFindOlderVersion needs m none = needs) := by
  refine ⟨?_, ?_, rfl, by decide, ?_, ?_⟩
  · intro s h
    simp [V42.parseApiLevel, h]
  · intro s h
    simp [V42.parseApiLevel, h]
  · intro m
    simp [V40.isCompatible, JS.truthyInt]
  · intro needs m
    simp [V42.mustFindOlderVersion, JS.truthyInt]

/-- Witness for C8 amended at concrete inputs: the non-numeric input abc and
the input 0 both parse to null. -/
theorem c8_amended_witness :
    V42.parseApiLevel (some "abc") = none ∧ V42.parseApiLevel (some "0") = none :=
  ⟨c8_amended.1 "abc" (by decide), c8_amended.2.1 "0" (by decide)⟩

/-! ## Branch decision and streaming proxy (v4.5 revision) -/

/-- Specification-side branch formula: mustFindOlder = requestedOlder OR
(minApiLevel known AND deviceApiLevel known AND minApiLevel > deviceApiLevel). -/
def specMustFindOlder (requestedOlder : Bool) (minApiLevel deviceApiLevel : Option Int) : Bool :=
  requestedOlder ||
    (match minApiLevel, deviceApiLevel with
     | some m, some d => decide (m > d)
     | _, _ => false)

namespace V45

/-- The parsed device profile of the v4.5 revision. -/
structure DeviceInfo where
  apiLevel : Option Int
  arch : Option String
  needsOlderVersion : Bool
  deriving DecidableEq, Repr

/-- Translation of getDeviceInfo of the v4.5 revision (the parse expression
parseInt(req.query.apiLevel) || null is the same as in v4.2). -/
def getDeviceInfo (q : V42.Query) : DeviceInfo :=
  { apiLevel := V42.parseApiLevel q.apiLevel
    arch := JS.orNullStr q.arch
    needsOlderVersion := q.needsOlderVersion == some "true" }

/-- Translation of the v4.5 older-version branch guard
if (needsOlder && deviceInfo.apiLevel): the older path is entered only when
the client asked for it AND the device API level is truthy. -/
def takesOlderPath (d : DeviceInfo) : Bool :=
  d.needsOlderVersion && JS.truthyInt d.apiLevel

/-- Response of GET /proxy-download. -/
inductive ProxyResponse where
  | badRequest
  | piped (upstreamUrl : String) (filename : String)
  | failed (message : String)
  deriving DecidableEq, Repr

/-- Translation of GET /proxy-download of the v4.5 revision: reject a falsy
url query (missing or empty) with 400, otherwise GET exactly the supplied
URL upstream and stream the body back as an APK attachment; an upstream
error becomes a 500. -/
def proxyDownload (upstream : String → Except NetErr Unit) (urlQ pkgQ verQ : Option String) :
    ProxyResponse :=
  let pkg := JS.orElseStr pkgQ "app"
  let ver := JS.orElseStr verQ "unknown"
  if !JS.truthyStr urlQ then .badRequest
  else
    match upstream (urlQ.getD "") with
    | .ok _ => .piped (urlQ.getD "") (pkg ++ "_" ++ ver ++ ".apk")
    | .error _ => .failed "Download failed"

end V45

/-- C3 counterexample.  In the v4.5 revision, a request with
needsOlderVersion = true but an unknown device apiLevel does not take the
older-version branch, contradicting the claim that requestedOlder = true
alone forces it. -/
theorem c3_counterexample :
    V45.takesOlderPath (V45.getDeviceInfo { needsOlderVersion := some "true" }) = false := by
  decide

/-- C3 amended.  In the v4.2 revision the older-version branch condition
equals the specification formula requestedOlder OR (minApiLevel known AND
deviceApiLevel known AND minApiLevel > deviceApiLevel) — for the values the
pipeline produces, where a known level is never 0 — and requestedOlder alone
forces the branch there; in the v4.5 revision, however, the older branch is
taken exactly when requestedOlder AND the device apiLevel is known. -/
theorem c3_amended :
    (∀ (needs : Bool) (minSdk api : Option Int), minSdk ≠ some 0 → api ≠ some 0 →
        V42.mustFindOlderVersion needs minSdk api = specMustFindOlder needs minSdk api) ∧
      (∀ minSdk api : Option Int, V42.mustFindOlderVersion true minSdk api = true) ∧
      (∀ d : V45.DeviceInfo, d.apiLevel ≠ some 0 →
        V45.takesOlderPath d = (d.needsOlderVersion && d.apiLevel.isSome)) := by
  refine ⟨?_, ?_, ?_⟩
  · intro needs minSdk api hm ha
    cases minSdk with
    | none => simp [V42.mustFindOlderVersion, specMustFindOlder, JS.truthyInt]
    | some m =>
      cases api with
      | none => simp [V42.mustFindOlderVersion, specMustFindOlder, JS.truthyInt]
      | some a =>
        have hm' : (m != 0) = true := by
          simp only [bne_iff_ne, ne_eq]
          exact fun h => hm (by rw [h])
        have ha' : (a != 0) = true := by
          simp only [bne_iff_ne, ne_eq]
          exact fun h => ha (by rw [h])
        simp [V42.mustFindOlderVersion, specMustFindOlder, JS.truthyInt, hm', ha']
  · intro minSdk api
    simp [V42.mustFindOlderVersion]
  · intro d hd
    cases h : d.apiLevel with
    | none => simp [V45.takesOlderPath, JS.truthyInt, h]
    | some a =>
      have ha' : a ≠ 0 := fun hz => hd (by rw [h, hz])
      simp [V45.takesOlderPath, JS.truthyInt, h, ha']

/-- Witness for C3 amended at concrete inputs: metadata minimum 31 against
device level 30 forces the v4.2 older branch, and the v4.5 guard refuses a
needsOlderVersion request with an unknown level. -/
theorem c3_amended_witness :
    V42.mustFindOlderVersion false (some 31) (some 30) = specMustFindOlder false (some 31) (some 30) ∧
      V45.takesOlderPath { apiLevel := none, arch := none, needsOlderVersion := true } =
        (true && (none : Option Int).isSome) :=
  ⟨c3_amended.1 false (some 31) (some 30) (by decide) (by decide),
   c3_amended.2.2 { apiLevel := none, arch := none, needsOlderVersion := true } (by decide)⟩

/-- C10 counterexample.  A request carrying the url query parameter with the
empty value is rejected with 400 and no upstream GET is issued, contradicting
the claim that every request carrying a url parameter leads to an upstream
GET of that URL (only a missing parameter being rejected). -/
theorem c10_counterexample :
    V45.proxyDownload (fun _ => Except.ok ()) (some "") none none = V45.ProxyResponse.badRequest := by
  decide

/-- C10 amended.  The proxy relays whatever non-empty URL the caller
supplies: a missing or empty url parameter is rejected with 400; any other
url value — with no restriction to catalog hosts — is fetched upstream
exactly as supplied and streamed back as an APK attachment, an upstream
failure becoming a 500 rather than a rejection. -/
theorem c10_amended :
    (∀ (up : String → Except NetErr Unit) (pkg ver : Option String),
        V45.proxyDownload up none pkg ver = V45.ProxyResponse.badRequest) ∧
      (∀ (up : String → Except NetErr Unit) (pkg ver : Option String),
        V45.proxyDownload up (some "") pkg ver = V45.ProxyResponse.badRequest) ∧
      (∀ (up : String → Except NetErr Unit) (url : String) (pkg ver : Option String), url ≠ "" →
        V45.proxyDownload up (some url) pkg ver ≠ V45.ProxyResponse.badRequest) ∧
      (∀ (up : String → Except NetErr Unit) (url : String) (pkg ver : Option String), url ≠ "" →
        up url = Except.ok () →
        V45.proxyDownload up (some url) pkg ver =
          V45.ProxyResponse.piped url
            (JS.orElseStr pkg "app" ++ "_" ++ JS.orElseStr ver "unknown" ++ ".apk")) ∧
      (∀ (up : String → Except NetErr Unit) (url : String) (pkg ver : Option String) (e : NetErr),
        url ≠ "" → up url = Except.error e →
        V45.proxyDownload up (some url) pkg ver = V45.ProxyResponse.failed "Download failed") := by
  refine ⟨?_, ?_, ?_, ?_, ?_⟩
  · intro up pkg ver
    simp [V45.proxyDownload, JS.truthyStr]
  · intro up pkg ver
    simp [V45.proxyDownload, JS.truthyStr]
  · intro up url pkg ver hu
    have ht : JS.truthyStr (some url) = true := by simp [JS.truthyStr, bne_iff_ne, hu]
    simp only [V45.proxyDownload, ht, Bool.not_true, Bool.false_eq_true, if_false, Option.getD_some]
    cases up url <;> simp
  · intro up url pkg ver hu hok
    have ht : JS.truthyStr (some url) = true := by simp [JS.truthyStr, bne_iff_ne, hu]
    simp only [V45.proxyDownload, ht, Bool.not_true, Bool.false_eq_true, if_false,
      Option.getD_some, hok]
  · intro up url pkg ver e hu herr
    have ht : JS.truthyStr (some url) = true := by simp [JS.truthyStr, bne_iff_ne, hu]
    simp only [V45.proxyDownload, ht, Bool.not_true, Bool.false_eq_true, if_false,
      Option.getD_some, herr]

/-- Witness for C10 amended at a concrete non-catalog URL: the proxy fetches
and streams it verbatim. -/
theorem c10_amended_witness :
    V45.proxyDownload (fun _ => Except.ok ()) (some "https://example.org/a.apk") (some "pkg") none =
      V45.ProxyResponse.piped "https://example.org/a.apk"
        (JS.orElseStr (some "pkg") "app" ++ "_" ++ JS.orElseStr none "unknown" ++ ".apk") :=
  c10_amended.2.2.2.1 (fun _ => Except.ok ()) "https://example.org/a.apk" (some "pkg") none
    (by decide) rfl

/-! ## Variant scoring and selection (v4.0 revision, tryApkMirrorWithCompatibility) -/

/-- The API-level-to-Android-version display table shared verbatim by the
getAndroidVersionName helpers of the v4.0 through v4.5 revisions. -/
def androidVersionNames (n : Int) : Option String :=
  if n = 21 then some "5.0" else if n = 22 then some "5.1"
  else if n = 23 then some "6.0" else if n = 24 then some "7.0"
  else if n = 25 then some "7.1" else if n = 26 then some "8.0"
  else if n = 27 then some "8.1" else if n = 28 then some "9"
  else if n = 29 then some "10" else if n = 30 then some "11"
  else if n = 31 then some "12" else if n = 32 then some "12L"
  else if n = 33 then some "13" else if n = 34 then some "14"
  else if n = 35 then some "15" else none

namespace V40

/-- The parsed device profile of the v4.0 revision (no needsOlderVersion
parameter in that revision). -/
structure DeviceInfo where
  apiLevel : Option Int
  arch : Option String
  dpi : Option String
  androidVersion : Option String
  deriving DecidableEq, Repr

/-- Translation of getDeviceInfo of the v4.0 revision (the apiLevel parse
expression is the same parseInt(req.query.apiLevel) || null as in v4.2). -/
def getDeviceInfo (q : V42.Query) : DeviceInfo :=
  { apiLevel := V42.parseApiLevel q.apiLevel
    arch := JS.orNullStr q.arch
    dpi := JS.orNullStr q.dpi
    androidVersion := JS.orNullStr q.androidVersion }

/-- Translation of getAndroidVersionName of the v4.0 revision. -/
def getAndroidVersionName (apiLevel : Int) : String :=
  (androidVersionNames apiLevel).getD (JS.intToString apiLevel)

/-- Translation of androidVersionToApi of the v4.0 revision: the exact
lookup table, then the parseFloat range buckets.  (An unparseable string
makes every float comparison false in JS, so NaN reaches the final null;
the none branch models that directly.) -/
def androidVersionToApi (s : String) : Option Int :=
  if s = "4.4" then some 19
  else if s = "5.0" then some 21
  else if s = "5.1" then some 22
  else if s = "6.0" then some 23
  else if s = "7.0" then some 24
  else if s = "7.1" then some 25
  else if s = "8.0" then some 26
  else if s = "8.1" then some 27
  else if s = "9" then some 28
  else if s = "9.0" then some 28
  else if s = "10" then some 29
  else if s = "11" then some 30
  else if s = "12" then some 31
  else if s = "12L" then some 32
  else if s = "13" then some 33
  else if s = "14" then some 34
  else if s = "15" then some 35
  else
    match JS.parseFloatJS s with
    | none => none
    | some num =>
      if num.geInt 4 && num.ltInt 5 then some 19
      else if num.geInt 5 && num.ltInt 6 then some 21
      else if num.geInt 6 && num.ltInt 7 then some 23
      else if num.geInt 7 && num.ltInt 8 then some 24
      else if num.geInt 8 && num.ltInt 9 then some 26
      else if num.geInt 9 && num.ltInt 10 then some 28
      else if num.geInt 10 && num.ltInt 11 then some 29
      else if num.geInt 11 && num.ltInt 12 then some 30
      else if num.geInt 12 && num.ltInt 13 then some 31
      else if num.geInt 13 && num.ltInt 14 then some 33
      else if num.geInt 14 && num.ltInt 15 then some 34
      else if num.geInt 15 then some 35
      else none

/-- An APKMirror variant row after the per-row field extraction (architecture,
minimum SDK, density, absolute link). -/
structure Variant where
  arch : Option String
  minSdk : Option Int
  dpi : Option String
  link : String
  deriving DecidableEq, Repr

/-- A variant together with its compatibility score. -/
structure ScoredVariant where
  arch : Option String
  minSdk : Option Int
  dpi : Option String
  link : String
  score : Int
  deriving DecidableEq, Repr

/-- Architecture clause of the v4.0 scoring: +100 exact match, +50 for a
universal (or nodpi-tagged) variant, +30 for a 64-bit device accepting a
32-bit build; skipped entirely when the device reported no architecture. -/
def archScore (d : DeviceInfo) (v : Variant) : Int :=
  if JS.truthyStr d.arch then
    if v.arch == d.arch then 100
    else if v.arch == some "universal" || v.arch == some "nodpi" then 50
    else if d.arch == some "arm64-v8a" && v.arch == some "armeabi-v7a" then 30
    else 0
  else 0

/-- API-level clause of the v4.0 scoring: +50 when the variant's known
minimum SDK fits the device, -1000 when it exceeds it; skipped when either
side is unknown. -/
def apiLevelScore (d : DeviceInfo) (v : Variant) : Int :=
  if JS.truthyInt d.apiLevel && JS.truthyInt v.minSdk then
    if v.minSdk.getD 0 ≤ d.apiLevel.getD 0 then 50 else -1000
  else 0

/-- Density clause of the v4.0 scoring: +20 exact match, +10 for a
density-agnostic (nodpi) variant; skipped when either side is unknown. -/
def dpiScore (d : DeviceInfo) (v : Variant) : Int :=
  if JS.truthyStr d.dpi && JS.truthyStr v.dpi then
    if v.dpi == d.dpi then 20
    else if v.dpi == some "nodpi" then 10
    else 0
  else 0

/-- The compatibility score of a variant against a device profile: the sum
of the three accumulating clauses of the v4.0 scoring block. -/
def scoreVariant (d : DeviceInfo) (v : Variant) : Int :=
  archScore d v + apiLevelScore d v + dpiScore d v

/-- The scored copy of a variant (the JS spread with an added score field). -/
def withScore (d : DeviceInfo) (v : Variant) : ScoredVariant :=
  { arch := v.arch, minSdk := v.minSdk, dpi := v.dpi, link := v.link
    score := scoreVariant d v }

/-- Outcome of the scored-variant block of tryApkMirrorWithCompatibility:
either a best variant is selected, or every variant is declared
incompatible, or the block falls through to the generic app-page answer. -/
inductive VariantOutcome where
  | selected (v : ScoredVariant)
  | incompatible
  | fallthrough
  deriving DecidableEq, Repr

/-- Translation of the selection logic: sort by score descending (stable, as
the JS engine sort), pick the first variant with a strictly positive score;
failing that, report incompatibility when the list is non-empty and every
score is negative, and otherwise fall through. -/
def variantSelection (scored : List ScoredVariant) : VariantOutcome :=
  match (List.insertionSort (fun a b => b.score ≤ a.score) scored).find?
      (fun v => decide (v.score > 0)) with
  | some best => .selected best
  | none =>
    if (List.insertionSort (fun a b => b.score ≤ a.score) scored).length > 0 &&
        (List.insertionSort (fun a b => b.score ≤ a.score) scored).all
          (fun v => decide (v.score < 0)) then
      .incompatible
    else .fallthrough

theorem archScore_le (d : DeviceInfo) (v : Variant) : archScore d v ≤ 100 := by
  unfold archScore
  split_ifs <;> norm_num

theorem dpiScore_le (d : DeviceInfo) (v : Variant) : dpiScore d v ≤ 20 := by
  unfold dpiScore
  split_ifs <;> norm_num

theorem apiLevelScore_disqualifies (d : DeviceInfo) (v : Variant)
    (hd : d.apiLevel = some 30) (hv : v.minSdk = some 31) :
    apiLevelScore d v = -1000 := by
  simp [apiLevelScore, hd, hv, JS.truthyInt]

/-- A selected variant always carries a strictly positive score. -/
theorem variantSelection_selected_pos (scored : List ScoredVariant) (w : ScoredVariant)
    (h : variantSelection scored = .selected w) : 0 < w.score := by
  unfold variantSelection at h
  split at h
  next best heq =>
    cases h
    simpa using List.find?_some heq
  next heq =>
    split at h <;> cases h

end V40

/-- C5.  Against a device with apiLevel 30, a variant with known minSdk 31 is
scored negatively (the -1000 disqualification dominates the at most 100 + 20
positive signal), and whenever the candidate set contains some variant with a
non-negative score, the scored-variant selection can never pick the
disqualified candidate. -/
theorem c5_disqualified_variant (d : V40.DeviceInfo) (v : V40.Variant) (vs : List V40.Variant)
    (hd : d.apiLevel = some 30) (hv : v.minSdk = some 31)
    (hex : ∃ u ∈ vs, 0 ≤ V40.scoreVariant d u) :
    V40.scoreVariant d v < 0 ∧
      ∀ w, V40.variantSelection (vs.map (V40.withScore d)) = V40.VariantOutcome.selected w →
        w ≠ V40.withScore d v := by
  have hneg : V40.scoreVariant d v < 0 := by
    have h1 := V40.archScore_le d v
    have h2 := V40.dpiScore_le d v
    have h3 := V40.apiLevelScore_disqualifies d v hd hv
    unfold V40.scoreVariant
    omega
  refine ⟨hneg, ?_⟩
  intro w hw heq
  have hpos := V40.variantSelection_selected_pos _ w hw
  rw [heq] at hpos
  simp only [V40.withScore] at hpos
  omega

/-- Witness for C5 at a concrete device and candidate set: the minSdk-31
candidate scores negatively and is not the selected one. -/
theorem c5_disqualified_variant_witness :
    V40.scoreVariant { apiLevel := some 30, arch := some "arm64-v8a", dpi := none, androidVersion := none }
        { arch := some "arm64-v8a", minSdk := some 31, dpi := none, link := "a" } < 0 ∧
      ∀ w, V40.variantSelection
          ([{ arch := some "arm64-v8a", minSdk := some 29, dpi := none, link := "b" },
            { arch := some "arm64-v8a", minSdk := some 31, dpi := none, link := "a" }].map
            (V40.withScore { apiLevel := some 30, arch := some "arm64-v8a", dpi := none, androidVersion := none })) =
          V40.VariantOutcome.selected w →
        w ≠ V40.withScore { apiLevel := some 30, arch := some "arm64-v8a", dpi := none, androidVersion := none }
          { arch := some "arm64-v8a", minSdk := some 31, dpi := none, link := "a" } :=
  c5_disqualified_variant _ _ _ rfl rfl
    ⟨{ arch := some "arm64-v8a", minSdk := some 29, dpi := none, link := "b" }, by decide, by decide⟩

/-- C6 counterexample.  A candidate set whose (unique, hence top) score is
exactly 0 does not yield a selected candidate: the selection requires a
strictly positive score, so the block falls through to the generic app-page
answer instead. -/
theorem c6_counterexample :
    V40.variantSelection [{ arch := none, minSdk := none, dpi := none, link := "x", score := 0 }] =
      V40.VariantOutcome.fallthrough := by
  decide

/-- C6 amended.  After ranking by score descending, a candidate is selected
exactly on a strictly positive top score — a selected candidate always has a
strictly positive score, and whenever some candidate scores strictly
positively (equivalently, the top score is strictly positive) the selection
returns a candidate, namely the top one (of maximal score); a non-empty set
in which every score is negative is reported as incompatible; and a set
whose top score is exactly 0 falls through (neither selected nor reported
incompatible). -/
theorem c6_amended (scored : List V40.ScoredVariant) :
    (∀ w, V40.variantSelection scored = V40.VariantOutcome.selected w → 0 < w.score) ∧
      (scored ≠ [] → (∀ v ∈ scored, v.score < 0) →
        V40.variantSelection scored = V40.VariantOutcome.incompatible) ∧
      ((∃ v ∈ scored, v.score = 0) → (∀ v ∈ scored, v.score ≤ 0) →
        V40.variantSelection scored = V40.VariantOutcome.fallthrough) ∧
      ((∃ v ∈ scored, 0 < v.score) →
        ∃ w, V40.variantSelection scored = V40.VariantOutcome.selected w ∧
          ∀ v ∈ scored, v.score ≤ w.score) := by
  have hperm := List.perm_insertionSort (fun a b : V40.ScoredVariant => b.score ≤ a.score) scored
  refine ⟨fun w h => V40.variantSelection_selected_pos scored w h, ?_, ?_, ?_⟩
  · intro hne hneg
    have hfind : (List.insertionSort (fun a b : V40.ScoredVariant => b.score ≤ a.score) scored).find?
        (fun v => decide (v.score > 0)) = none := by
      rw [List.find?_eq_none]
      intro x hx
      have := hneg x (hperm.mem_iff.mp hx)
      simp
      omega
    have hlen : (List.insertionSort (fun a b : V40.ScoredVariant => b.score ≤ a.score) scored).length > 0 := by
      rw [hperm.length_eq]
      exact List.length_pos.mpr hne
    have hall : (List.insertionSort (fun a b : V40.ScoredVariant => b.score ≤ a.score) scored).all
        (fun v => decide (v.score < 0)) = true := by
      rw [List.all_eq_true]
      intro x hx
      simpa using hneg x (hperm.mem_iff.mp hx)
    unfold V40.variantSelection
    rw [hfind]
    simp [hlen, hall, hne]
  · intro hzero hle
    obtain ⟨v0, hv0mem, hv0⟩ := hzero
    have hfind : (List.insertionSort (fun a b : V40.ScoredVariant => b.score ≤ a.score) scored).find?
        (fun v => decide (v.score > 0)) = none := by
      rw [List.find?_eq_none]
      intro x hx
      have := hle x (hperm.mem_iff.mp hx)
      simp
      omega
    have hallfalse : (List.insertionSort (fun a b : V40.ScoredVariant => b.score ≤ a.score) scored).all
        (fun v => decide (v.score < 0)) = false := by
      rw [List.all_eq_false]
      exact ⟨v0, hperm.mem_iff.mpr hv0mem, by simp [hv0]⟩
    unfold V40.variantSelection
    rw [hfind]
    simp [hallfalse]
  · intro hex
    obtain ⟨v0, hv0mem, hv0pos⟩ := hex
    haveI htot : IsTotal V40.ScoredVariant (fun a b => b.score ≤ a.score) :=
      ⟨fun a b => le_total b.score a.score⟩
    haveI htr : IsTrans V40.ScoredVariant (fun a b => b.score ≤ a.score) :=
      ⟨fun _ _ _ hab hbc => le_trans hbc hab⟩
    have hsorted :=
      List.sorted_insertionSort (fun a b : V40.ScoredVariant => b.score ≤ a.score) scored
    have hv0L : v0 ∈ List.insertionSort (fun a b : V40.ScoredVariant => b.score ≤ a.score) scored :=
      hperm.mem_iff.mpr hv0mem
    cases hL : List.insertionSort (fun a b : V40.ScoredVariant => b.score ≤ a.score) scored with
    | nil =>
      rw [hL] at hv0L
      cases hv0L
    | cons hd tl =>
      rw [hL] at hv0L hsorted
      have hhead := (List.sorted_cons.mp hsorted).1
      have hhd : 0 < hd.score := by
        rcases List.mem_cons.mp hv0L with h | h
        · rw [← h]
          exact hv0pos
        · exact lt_of_lt_of_le hv0pos (hhead v0 h)
      have hfind : (List.insertionSort (fun a b : V40.ScoredVariant => b.score ≤ a.score)
          scored).find? (fun v => decide (v.score > 0)) = some hd := by
        rw [hL]
        exact List.find?_cons_of_pos _ (by simpa using hhd)
      refine ⟨hd, ?_, ?_⟩
      · unfold V40.variantSelection
        rw [hfind]
      · intro v hv
        have hvL : v ∈ hd :: tl := by
          rw [← hL]
          exact hperm.mem_iff.mpr hv
        rcases List.mem_cons.mp hvL with h | h
        · exact le_of_eq (by rw [h])
        · exact hhead v h

/-- Witness for C6 amended at concrete candidate sets: an all-negative set
reports incompatibility, and a set containing a strictly positive score
yields a selected top candidate. -/
theorem c6_amended_witness :
    V40.variantSelection [{ arch := none, minSdk := some 31, dpi := none, link := "y", score := -1000 }] =
        V40.VariantOutcome.incompatible ∧
      ∃ w, V40.variantSelection
            [{ arch := some "arm64-v8a", minSdk := some 29, dpi := none, link := "z", score := 150 }] =
          V40.VariantOutcome.selected w ∧
        ∀ v ∈ [({ arch := some "arm64-v8a", minSdk := some 29, dpi := none, link := "z", score := 150 } : V40.ScoredVariant)], v.score ≤ w.score :=
  ⟨(c6_amended _).2.1 (by decide) (by decide),
   (c6_amended _).2.2.2
     ⟨{ arch := some "arm64-v8a", minSdk := some 29, dpi := none, link := "z", score := 150 },
      by decide, by decide⟩⟩

/-! ## Result records and further JS primitives for the handler models -/

namespace JS

/-- Model of JS s.toLowerCase() (ASCII, which covers the markup tokens the
service lowercases). -/
def strToLower (s : String) : String :=
  ⟨s.data.map Char.toLower⟩

/-- Model of JS s.trim(). -/
def strTrim (s : String) : String :=
  ⟨((s.data.dropWhile Char.isWhitespace).reverse.dropWhile Char.isWhitespace).reverse⟩

/-- JS template interpolation of a possibly-null number (null renders as the
string null). -/
def renderOptInt (o : Option Int) : String :=
  match o with
  | some n => intToString n
  | none => "null"

/-- JS template interpolation of a possibly-null string. -/
def renderOptStr (o : Option String) : String :=
  match o with
  | some s => s
  | none => "null"

end JS

/-- The google-play-scraper record fields the handlers read. -/
structure GplayApp where
  title : Option String
  androidVersion : Option String
  deriving DecidableEq, Repr

/-- The JSON result of a /apk-url resolution, shared across revisions.
Absent JSON fields are none/default; manualDownload is the named list of
manual catalog search URLs when the response carries one.  Presentation-only
echo fields (deviceInfo echo, newestVersion, availableVariants, suggestion)
are omitted as stated in the file header. -/
structure ApkResult where
  success : Bool
  source : Option String := none
  downloadUrl : Option String := none
  packageName : Option String := none
  appName : Option String := none
  version : Option String := none
  minSdk : Option Int := none
  format : Option String := none
  compatible : Option Bool := none
  isOlderVersion : Option Bool := none
  canRetryWithOlderVersion : Option Bool := none
  compatibilityWarning : Option String := none
  deviceApiLevel : Option Int := none
  requiredApiLevel : Option Int := none
  manualDownload : Option (List (String × String)) := none
  error : Option String := none
  note : Option String := none
  variantArch : Option String := none
  variantMinSdk : Option Int := none
  variantDpi : Option String := none
  deriving DecidableEq, Repr

/-! ## The v4.0 /apk-url handler (tryApkPureWithCompatibility,
tryApkMirrorWithCompatibility, tryApkPureBasic, tryApkCombo) -/

namespace V40

/-- One parsed row of the APKPure versions page (text and link extraction
results of the scraping selectors). -/
structure PureCompatRow where
  versionText : String
  requiresMatch : Option String
  downloadLink : Option String
  deriving DecidableEq, Repr

/-- Outcomes of the two fetches of tryApkPureWithCompatibility: the search
page (its extracted a.first-info link) and the versions page (its extracted
rows). -/
structure PureCompatEnv where
  search : Except NetErr (Option String)
  versionsPage : Except NetErr (List PureCompatRow)
  deriving Repr

/-- A version entry assembled from a row. -/
structure PureCompatVersion where
  version : String
  minSdk : Option Int
  downloadUrl : String
  deriving DecidableEq, Repr

/-- Row-to-entry assembly of tryApkPureWithCompatibility: requires both a
version text and a download link, converts the requires capture through
androidVersionToApi, and absolutizes the link. -/
def mkPureCompatVersion (r : PureCompatRow) : PureCompatVersion :=
  { version := JS.strTrim r.versionText
    minSdk :=
      match r.requiresMatch with
      | some g => androidVersionToApi g
      | none => none
    downloadUrl :=
      let dl := r.downloadLink.getD ""
      if JS.strStartsWith dl "http" then dl else "https://apkpure.com" ++ dl }

/-- Body of tryApkPureWithCompatibility, with the inner versions-page
try/catch translated (a versions-page failure falls through to the final
miss) and the search fetch left to the function-level catch. -/
def tryApkPureWithCompatibilityBody (env : PureCompatEnv) (pkg : String) (d : DeviceInfo) :
    Except NetErr ApkResult :=
  if JS.truthyInt d.apiLevel then
    match env.search with
    | .error e => .error e
    | .ok none => .ok { success := false }
    | .ok (some _) =>
      match env.versionsPage with
      | .error _ => .ok { success := false }
      | .ok rows =>
        let versions := rows.filterMap (fun r =>
          if r.versionText != "" && JS.truthyStr r.downloadLink
          then some (mkPureCompatVersion r) else none)
        match versions.find? (fun v =>
            !JS.truthyInt v.minSdk || decide (v.minSdk.getD 0 ≤ d.apiLevel.getD 0)) with
        | some cv =>
          .ok { success := true
                source := some "apkpure_compatible"
                downloadUrl := some cv.downloadUrl
                packageName := some pkg
                version := some cv.version
                minSdk := cv.minSdk
                compatible := some true
                deviceApiLevel := d.apiLevel
                format := some "XAPK" }
        | none =>
          if versions.length > 0 then
            .ok { success := false
                  compatible := some false
                  error := some ("No compatible version available for Android " ++
                    getAndroidVersionName (d.apiLevel.getD 0))
                  packageName := some pkg }
          else .ok { success := false }
  else .ok { success := false }

/-- tryApkPureWithCompatibility with its function-level catch: any escaped
network error becomes the miss result. -/
def tryApkPureWithCompatibility (env : PureCompatEnv) (pkg : String) (d : DeviceInfo) : ApkResult :=
  match tryApkPureWithCompatibilityBody env pkg d with
  | .ok r => r
  | .error _ => { success := false }

/-- One parsed variant row of the APKMirror app page (regex captures of the
variant text and the row link). -/
structure MirrorVariantRow where
  archMatch : Option String
  minApiGroup : Option String
  dpiMatch : Option String
  link : Option String
  deriving DecidableEq, Repr

/-- Outcomes of the two fetches of tryApkMirrorWithCompatibility. -/
structure MirrorCompatEnv where
  search : Except NetErr (Option String)
  appPage : Except NetErr (List MirrorVariantRow)
  deriving Repr

/-- Row-to-variant assembly of tryApkMirrorWithCompatibility: lowercase the
architecture and density captures; a minAPI capture containing a dot goes
through androidVersionToApi, a bare one through parseInt; rows without a
link are dropped by the caller. -/
def mkMirrorVariant (r : MirrorVariantRow) (l : String) : Variant :=
  { arch := r.archMatch.map JS.strToLower
    minSdk :=
      match r.minApiGroup with
      | some g => if JS.strContains g "." then androidVersionToApi g else JS.parseIntJS g
      | none => none
    dpi := r.dpiMatch.map JS.strToLower
    link := "https://www.apkmirror.com" ++ l }

/-- Body of tryApkMirrorWithCompatibility: search for the app page; with
device hints, fetch the variant table, score, sort and select (a variant
fetch failure or a selection fall-through lands on the generic app-page
answer); the search fetch is left to the function-level catch. -/
def tryApkMirrorWithCompatibilityBody (env : MirrorCompatEnv) (pkg : String) (d : DeviceInfo) :
    Except NetErr ApkResult :=
  match env.search with
  | .error e => .error e
  | .ok none => .ok { success := false }
  | .ok (some appLink) =>
    let appUrl := "https://www.apkmirror.com" ++ appLink
    let pageAnswer : ApkResult :=
      { success := true
        source := some "apkmirror"
        downloadUrl := some appUrl
        packageName := some pkg
        note := some "APKMirror app page - select compatible version manually" }
    if JS.truthyInt d.apiLevel || JS.truthyStr d.arch then
      match env.appPage with
      | .error _ => .ok pageAnswer
      | .ok rows =>
        let variants := rows.filterMap (fun r =>
          match r.link with
          | some l => some (mkMirrorVariant r l)
          | none => none)
        match variantSelection (variants.map (withScore d)) with
        | .selected best =>
          .ok { success := true
                source := some "apkmirror"
                downloadUrl := some best.link
                packageName := some pkg
                variantArch := best.arch
                variantMinSdk := best.minSdk
                variantDpi := best.dpi
                compatible := some true
                note := some "APKMirror - click download on the page" }
        | .incompatible =>
          .ok { success := false
                compatible := some false
                error := some ("No compatible variant for API " ++ JS.renderOptInt d.apiLevel ++
                  " / " ++ JS.renderOptStr d.arch) }
        | .fallthrough => .ok pageAnswer
    else .ok pageAnswer

/-- tryApkMirrorWithCompatibility with its function-level catch. -/
def tryApkMirrorWithCompatibility (env : MirrorCompatEnv) (pkg : String) (d : DeviceInfo) : ApkResult :=
  match tryApkMirrorWithCompatibilityBody env pkg d with
  | .ok r => r
  | .error _ => { success := false }

/-- Outcomes of the two HEAD probes of tryApkPureBasic. -/
structure PureBasicEnv where
  xapkHead : Except NetErr Unit
  apkHead : Except NetErr Unit
  deriving Repr

/-- Translation of tryApkPureBasic: probe the latest XAPK, on failure the
latest APK; a second failure reaches the function-level catch and yields the
miss. -/
def tryApkPureBasic (env : PureBasicEnv) (pkg : String) : ApkResult :=
  match env.xapkHead with
  | .ok _ =>
    { success := true
      source := some "apkpure_direct"
      downloadUrl := some ("https://d.apkpure.com/b/XAPK/" ++ pkg ++ "?version=latest")
      packageName := some pkg
      format := some "XAPK"
      note := some "Latest version - compatibility not verified" }
  | .error _ =>
    match env.apkHead with
    | .ok _ =>
      { success := true
        source := some "apkpure_direct"
        downloadUrl := some ("https://d.apkpure.com/b/APK/" ++ pkg ++ "?version=latest")
        packageName := some pkg
        format := some "APK" }
    | .error _ => { success := false }

/-- Translation of tryApkCombo: GET the app page; 200 is a hit, any other
accepted status misses, a thrown error is caught into the miss. -/
def tryApkCombo (env : Except NetErr Nat) (pkg : String) : ApkResult :=
  match env with
  | .ok status =>
    if status = 200 then
      { success := true
        source := some "apkcombo"
        downloadUrl := some ("https://apkcombo.com/app/" ++ pkg ++ "/")
        packageName := some pkg
        note := some "APKCombo page - click download button" }
    else { success := false }
  | .error _ => { success := false }

/-- All upstream-call outcomes of one v4.0 /apk-url request. -/
structure Env where
  gplayApp : Except NetErr GplayApp
  pureCompat : PureCompatEnv
  mirrorCompat : MirrorCompatEnv
  pureBasic : PureBasicEnv
  combo : Except NetErr Nat
  deriving Repr

/-- Body of the v4.0 /apk-url handler: Play-Store minimum lookup (its own
try/catch), then the four source methods in order, with the store-derived
incompatibility warning attached to a basic-method hit, and the manual
search-page fallback when everything misses. -/
def apkUrlBody (env : Env) (pkg : String) (q : V42.Query) : Except NetErr ApkResult :=
  let d := getDeviceInfo q
  let minSdkFromStore : Option Int :=
    match env.gplayApp with
    | .ok info =>
      if JS.truthyStr info.androidVersion &&
          !JS.strContains (info.androidVersion.getD "") "Varies"
      then androidVersionToApi (info.androidVersion.getD "") else none
    | .error _ => none
  let r1 := tryApkPureWithCompatibility env.pureCompat pkg d
  if r1.success then .ok r1
  else
    let r2 := tryApkMirrorWithCompatibility env.mirrorCompat pkg d
    if r2.success then .ok r2
    else
      let r3 := tryApkPureBasic env.pureBasic pkg
      if r3.success then
        if JS.truthyInt minSdkFromStore && JS.truthyInt d.apiLevel &&
            decide (minSdkFromStore.getD 0 > d.apiLevel.getD 0) then
          .ok { r3 with
                compatible := some false
                compatibilityWarning := some ("This app requires Android " ++
                  getAndroidVersionName (minSdkFromStore.getD 0) ++ " (API " ++
                  JS.intToString (minSdkFromStore.getD 0) ++ "). Your device runs Android " ++
                  getAndroidVersionName (d.apiLevel.getD 0) ++ " (API " ++
                  JS.intToString (d.apiLevel.getD 0) ++ ").") }
        else .ok r3
      else
        let r4 := tryApkCombo env.combo pkg
        if r4.success then .ok r4
        else
          .ok { success := false
                error := some "Could not find direct APK link"
                manualDownload := some
                  [("apkpure", "https://apkpure.com/search?q=" ++ pkg),
                   ("apkmirror", "https://www.apkmirror.com/?s=" ++ pkg),
                   ("apkcombo", "https://apkcombo.com/search/" ++ pkg)]
                packageName := some pkg }

/-- The v4.0 /apk-url handler with its outer try/catch. -/
def apkUrl (env : Env) (pkg : String) (q : V42.Query) : ApkResult :=
  match apkUrlBody env pkg q with
  | .ok r => r
  | .error e => { success := false, error := some e.message }

end V40

/-- The concrete v4.0 environment of the C1 counterexample: the Play Store
reports Android 12 (API 31), both compatibility-aware catalog methods miss
(no app link found), and the basic latest-XAPK probe succeeds. -/
def c1Env : V40.Env :=
  { gplayApp := .ok { title := some "ChatGPT", androidVersion := some "12" }
    pureCompat := { search := .ok none, versionsPage := .ok [] }
    mirrorCompat := { search := .ok none, appPage := .ok [] }
    pureBasic := { xapkHead := .ok (), apkHead := .ok () }
    combo := .ok 200 }

/-- C1 counterexample.  In the v4.0 revision, a device with apiLevel 30
asking for an app whose store minimum is API 31 receives — when both
compatibility-aware methods miss and the basic latest probe succeeds — a
result with success = true AND compatible = false (and no manual fallback),
contradicting the claimed invariant that compatible = false forces
success = false with a manualFallback present. -/
theorem c1_counterexample :
    (V40.apkUrl c1Env "com.openai.chatgpt" { apiLevel := some "30" }).success = true ∧
      (V40.apkUrl c1Env "com.openai.chatgpt" { apiLevel := some "30" }).compatible = some false ∧
      (V40.apkUrl c1Env "com.openai.chatgpt" { apiLevel := some "30" }).manualDownload = none := by
  refine ⟨?_, ?_, ?_⟩ <;> rfl

/-! ## The v4.2 /apk-url handler (findOlderVersionApkMirror,
findOlderVersionApkPure, tryApkMirror) -/

namespace V42

/-- Translation of getAndroidVersionName of the v4.2 revision
(versions table, else the numeric string, else Unknown for null). -/
def getAndroidVersionName (apiLevel : Option Int) : String :=
  match apiLevel with
  | some n => (androidVersionNames n).getD (JS.intToString n)
  | none => "Unknown"

/-- Translation of androidVersionToApi of the v4.2 revision: null check,
exact lookup table, explicit NaN check, then ascending parseFloat range
buckets. -/
def androidVersionToApi (versionStr : Option String) : Option Int :=
  if !JS.truthyStr versionStr then none
  else
    let s := versionStr.getD ""
    if s = "4.4" then some 19
    else if s = "5.0" then some 21
    else if s = "5.1" then some 22
    else if s = "6.0" then some 23
    else if s = "7.0" then some 24
    else if s = "7.1" then some 25
    else if s = "8.0" then some 26
    else if s = "8.1" then some 27
    else if s = "9" then some 28
    else if s = "9.0" then some 28
    else if s = "10" then some 29
    else if s = "11" then some 30
    else if s = "12" then some 31
    else if s = "12L" then some 32
    else if s = "13" then some 33
    else if s = "14" then some 34
    else if s = "15" then some 35
    else
      match JS.parseFloatJS s with
      | none => none
      | some num =>
        if num.geInt 4 && num.ltInt 5 then some 19
        else if num.geInt 5 && num.ltInt 6 then some 21
        else if num.geInt 6 && num.ltInt 7 then some 23
        else if num.geInt 7 && num.ltInt 8 then some 24
        else if num.geInt 8 && num.ltInt 9 then some 26
        else if num.geInt 9 && num.ltInt 10 then some 28
        else if num.geInt 10 && num.ltInt 11 then some 29
        else if num.geInt 11 && num.ltInt 12 then some 30
        else if num.geInt 12 && num.ltInt 13 then some 31
        else if num.geInt 13 && num.ltInt 14 then some 33
        else if num.geInt 14 && num.ltInt 15 then some 34
        else if num.geInt 15 then some 35
        else none

/-- One parsed row of the APKMirror app page in findOlderVersionApkMirror
(link and regex captures of the row text). -/
structure MirrorRow where
  link : Option String
  minApiMatch : Option String
  androidMatch : Option String
  versionMatch : Option String
  deriving DecidableEq, Repr

/-- A version entry assembled from an APKMirror row. -/
structure MirrorVersion where
  version : Option String
  minSdk : Option Int
  link : String
  deriving DecidableEq, Repr

/-- Row-to-entry assembly of findOlderVersionApkMirror: a minAPI capture
parses as an integer, otherwise an Android-version capture goes through
androidVersionToApi; rows without a link are dropped by the caller. -/
def mkMirrorVersion (r : MirrorRow) (l : String) : MirrorVersion :=
  { version := r.versionMatch
    minSdk :=
      match r.minApiMatch with
      | some g => JS.parseIntJS g
      | none =>
        match r.androidMatch with
        | some g => androidVersionToApi (some g)
        | none => none
    link := "https://www.apkmirror.com" ++ l }

/-- Outcomes of the two fetches of findOlderVersionApkMirror. -/
structure MirrorEnv where
  search : Except NetErr (Option String)
  appPage : Except NetErr (List MirrorRow)
  deriving Repr

/-- Body of findOlderVersionApkMirror of the v4.2 revision: search for the
app page, collect the version rows, return the newest entry whose minimum
SDK is unknown or fits the device; with rows but no fit, return the app page
itself; with no rows, miss.  Both fetches are left to the function-level
catch. -/
def findOlderVersionApkMirrorBody (env : MirrorEnv) (d : DeviceInfo) (pkg appName : String) :
    Except NetErr ApkResult :=
  match env.search with
  | .error e => .error e
  | .ok none => .ok { success := false }
  | .ok (some appLink) =>
    let appUrl := "https://www.apkmirror.com" ++ appLink
    match env.appPage with
    | .error e => .error e
    | .ok rows =>
      let versions := rows.filterMap (fun r =>
        match r.link with
        | some l => some (mkMirrorVersion r l)
        | none => none)
      match (if JS.truthyInt d.apiLevel && decide (versions.length > 0) then
               versions.find? (fun v =>
                 !JS.truthyInt v.minSdk || decide (v.minSdk.getD 0 ≤ d.apiLevel.getD 0))
             else none) with
      | some compatible =>
        .ok { success := true
              source := some "apkmirror_older"
              downloadUrl := some compatible.link
              packageName := some pkg
              appName := some appName
              version := compatible.version
              minSdk := compatible.minSdk
              compatible := some true
              isOlderVersion := some true
              note := some "Older compatible version - click download on APKMirror page" }
      | none =>
        if versions.length > 0 then
          .ok { success := true
                source := some "apkmirror"
                downloadUrl := some appUrl
                packageName := some pkg
                note := some "APKMirror page - manually select a compatible version" }
        else .ok { success := false }

/-- findOlderVersionApkMirror with its function-level catch: any network
error is swallowed into the miss result. -/
def findOlderVersionApkMirror (env : MirrorEnv) (d : DeviceInfo) (pkg appName : String) : ApkResult :=
  match findOlderVersionApkMirrorBody env d pkg appName with
  | .ok r => r
  | .error _ => { success := false }

/-- One parsed row of the APKPure versions page in findOlderVersionApkPure. -/
structure PureRow where
  text : String
  link : Option String
  reqMatch : Option String
  verMatch : Option String
  deriving DecidableEq, Repr

/-- A version entry assembled from an APKPure row. -/
structure PureVersion where
  version : String
  minSdk : Option Int
  link : String
  deriving DecidableEq, Repr

/-- Outcomes of the two fetches of findOlderVersionApkPure. -/
structure PureEnv where
  search : Except NetErr (Option String)
  versionsPage : Except NetErr (List PureRow)
  deriving Repr

/-- Row-to-entry assembly of findOlderVersionApkPure: rows need a truthy
link and text and a version capture; the requires capture goes through
androidVersionToApi; the link is absolutized. -/
def mkPureVersion (r : PureRow) : Option PureVersion :=
  if !JS.truthyStr r.link || r.text == "" then none
  else
    match r.verMatch with
    | some vm =>
      some { version := vm
             minSdk :=
               match r.reqMatch with
               | some g => androidVersionToApi (some g)
               | none => none
             link :=
               let l := r.link.getD ""
               if JS.strStartsWith l "http" then l else "https://apkpure.com" ++ l }
    | none => none

/-- Body of findOlderVersionApkPure of the v4.2 revision: search for the app
path, fetch the versions page, return the newest entry whose minimum SDK is
unknown or fits the device, else miss.  Both fetches are left to the
function-level catch. -/
def findOlderVersionApkPureBody (env : PureEnv) (d : DeviceInfo) (pkg appName : String) :
    Except NetErr ApkResult :=
  match env.search with
  | .error e => .error e
  | .ok none => .ok { success := false }
  | .ok (some _) =>
    match env.versionsPage with
    | .error e => .error e
    | .ok rows =>
      let versions := rows.filterMap mkPureVersion
      match (if JS.truthyInt d.apiLevel && decide (versions.length > 0) then
               versions.find? (fun v =>
                 !JS.truthyInt v.minSdk || decide (v.minSdk.getD 0 ≤ d.apiLevel.getD 0))
             else none) with
      | some compatible =>
        .ok { success := true
              source := some "apkpure_older"
              downloadUrl := some compatible.link
              packageName := some pkg
              appName := some appName
              version := some compatible.version
              minSdk := compatible.minSdk
              compatible := some true
              isOlderVersion := some true
              note := some "Older compatible version from APKPure" }
      | none => .ok { success := false }

/-- findOlderVersionApkPure with its function-level catch. -/
def findOlderVersionApkPure (env : PureEnv) (d : DeviceInfo) (pkg appName : String) : ApkResult :=
  match findOlderVersionApkPureBody env d pkg appName with
  | .ok r => r
  | .error _ => { success := false }

/-- Translation of tryApkMirror of the v4.2 revision: search result page
with an app-row link means a hit, a missing link or a thrown error means a
miss. -/
def tryApkMirror (search : Except NetErr (Option String)) (pkg : String) : ApkResult :=
  match search with
  | .error _ => { success := false }
  | .ok none => { success := false }
  | .ok (some appLink) =>
    { success := true
      source := some "apkmirror"
      downloadUrl := some ("https://www.apkmirror.com" ++ appLink)
      packageName := some pkg
      note := some "APKMirror page" }

/-- All upstream-call outcomes of one v4.2 /apk-url request. -/
structure Env where
  gplayApp : Except NetErr GplayApp
  mirror : MirrorEnv
  pure : PureEnv
  xapkHead : Except NetErr Unit
  apkHead : Except NetErr Unit
  mirrorBasic : Except NetErr (Option String)
  deriving Repr

/-- Body of the v4.2 /apk-url handler: Play-Store minimum lookup (its own
try/catch), the mustFindOlderVersion branch decision, then either the
older-version chain — APKMirror history, APKPure history, and finally a
success result pointing at the APKMirror search page — or the latest-version
chain with the manual search-page fallback. -/
def apkUrlBody (env : Env) (pkg : String) (q : Query) : Except NetErr ApkResult :=
  let d := getDeviceInfo q
  let appName : String :=
    match env.gplayApp with
    | .ok info => JS.orElseStr info.title pkg
    | .error _ => pkg
  let minSdkFromStore : Option Int :=
    match env.gplayApp with
    | .ok info =>
      if JS.truthyStr info.androidVersion &&
          !JS.strContains (info.androidVersion.getD "") "Varies"
      then androidVersionToApi info.androidVersion else none
    | .error _ => none
  if mustFindOlderVersion d.needsOlderVersion minSdkFromStore d.apiLevel then
    let r1 := findOlderVersionApkMirror env.mirror d pkg appName
    if r1.success then .ok r1
    else
      let r2 := findOlderVersionApkPure env.pure d pkg appName
      if r2.success then .ok r2
      else
        .ok { success := true
              source := some "apkmirror_manual"
              downloadUrl := some
                ("https://www.apkmirror.com/?post_type=app_release&searchtype=apk&s=" ++ pkg)
              packageName := some pkg
              appName := some appName
              compatible := some true
              isOlderVersion := some true
              note := some "Please select an older version compatible with your device from APKMirror" }
  else
    match env.xapkHead with
    | .ok _ =>
      .ok { success := true
            source := some "apkpure"
            downloadUrl := some ("https://d.apkpure.com/b/XAPK/" ++ pkg ++ "?version=latest")
            packageName := some pkg
            format := some "XAPK"
            version := some "latest"
            canRetryWithOlderVersion := some true }
    | .error _ =>
      match env.apkHead with
      | .ok _ =>
        .ok { success := true
              source := some "apkpure"
              downloadUrl := some ("https://d.apkpure.com/b/APK/" ++ pkg ++ "?version=latest")
              packageName := some pkg
              format := some "APK"
              version := some "latest"
              canRetryWithOlderVersion := some true }
      | .error _ =>
        let am := tryApkMirror env.mirrorBasic pkg
        if am.success then .ok { am with canRetryWithOlderVersion := some true }
        else
          .ok { success := false
                error := some "Could not find APK download"
                manualDownload := some
                  [("apkpure", "https://apkpure.com/search?q=" ++ pkg),
                   ("apkmirror", "https://www.apkmirror.com/?s=" ++ pkg)]
                packageName := some pkg }

/-- The v4.2 /apk-url handler with its outer try/catch. -/
def apkUrl (env : Env) (pkg : String) (q : Query) : ApkResult :=
  match apkUrlBody env pkg q with
  | .ok r => r
  | .error e => { success := false, error := some e.message }

end V42

/-- C2 counterexample.  In the v4.2 revision, under the claimed scenario —
device apiLevel 30, Play-Store metadata reporting Android 12 (API 31), no
override store in that revision, and both catalogs unreachable — the
/apk-url handler returns a SUCCESS result whose downloadUrl is the APKMirror
search page, with compatible = true and no manual fallback, instead of the
claimed success=false, compatible=false, manualFallback result. -/
theorem c2_counterexample :
    V42.apkUrl
        { gplayApp := .ok { title := some "Example App", androidVersion := some "12" }
          mirror := { search := .error .timeout, appPage := .error .timeout }
          pure := { search := .error .timeout, versionsPage := .error .timeout }
          xapkHead := .error .timeout, apkHead := .error .timeout
          mirrorBasic := .error .timeout }
        "com.example.app" { apiLevel := some "30" } =
      { success := true
        source := some "apkmirror_manual"
        downloadUrl := some
          "https://www.apkmirror.com/?post_type=app_release&searchtype=apk&s=com.example.app"
        packageName := some "com.example.app"
        appName := some "Example App"
        compatible := some true
        isOlderVersion := some true
        note := some "Please select an older version compatible with your device from APKMirror" } :=
  rfl

/-! ## The v4.4 /apk-url handler (findOlderVersionFromApkPure,
getApkPureDownloadUrl, tryApkMirror) -/

namespace JS

/-- Model of the JS encodeURIComponent builtin (ASCII model; the service
encodes app names and URLs made of ASCII). -/
def hexDigitChar (n : Nat) : Char :=
  if n < 10 then Char.ofNat (48 + n) else Char.ofNat (55 + n)

/-- Character class kept verbatim by encodeURIComponent. -/
def isUriUnreserved (c : Char) : Bool :=
  c.isAlpha || c.isDigit || c = '-' || c = '_' || c = '.' || c = '!' || c = '~' ||
    c = '*' || c = Char.ofNat 39 || c = '(' || c = ')'

/-- Percent-encoding of one character. -/
def encodeUriChar (c : Char) : List Char :=
  if isUriUnreserved c then [c]
  else ['%', hexDigitChar (c.toNat / 16), hexDigitChar (c.toNat % 16)]

/-- Model of JS encodeURIComponent. -/
def encodeURIComponent (s : String) : String :=
  ⟨s.data.foldr (fun c acc => encodeUriChar c ++ acc) []⟩

end JS

namespace V44

/-- The v4.4 revision parses the device profile with the same getDeviceInfo
text as v4.2, so it shares that translation. -/
def getDeviceInfo (q : V42.Query) : V42.DeviceInfo :=
  V42.getDeviceInfo q

/-- Translation of getAndroidVersionName of the v4.4 revision (same text as
the v4.2 one). -/
def getAndroidVersionName (apiLevel : Option Int) : String :=
  match apiLevel with
  | some n => (androidVersionNames n).getD (JS.intToString n)
  | none => "Unknown"

/-- Translation of androidVersionToApi of the v4.4 revision: null check, the
extended lookup table (with the 10.0 and 11.0 keys), explicit NaN check,
then DESCENDING parseFloat threshold buckets. -/
def androidVersionToApi (versionStr : Option String) : Option Int :=
  if !JS.truthyStr versionStr then none
  else
    let s := versionStr.getD ""
    if s = "4.4" then some 19
    else if s = "5.0" then some 21
    else if s = "5.1" then some 22
    else if s = "6.0" then some 23
    else if s = "7.0" then some 24
    else if s = "7.1" then some 25
    else if s = "8.0" then some 26
    else if s = "8.1" then some 27
    else if s = "9" then some 28
    else if s = "9.0" then some 28
    else if s = "10" then some 29
    else if s = "10.0" then some 29
    else if s = "11" then some 30
    else if s = "11.0" then some 30
    else if s = "12" then some 31
    else if s = "12L" then some 32
    else if s = "13" then some 33
    else if s = "14" then some 34
    else if s = "15" then some 35
    else
      match JS.parseFloatJS s with
      | none => none
      | some num =>
        if num.geInt 15 then some 35
        else if num.geInt 14 then some 34
        else if num.geInt 13 then some 33
        else if num.geInt 12 then some 31
        else if num.geInt 11 then some 30
        else if num.geInt 10 then some 29
        else if num.geInt 9 then some 28
        else if num.geInt 8 then some 26
        else if num.geInt 7 then some 24
        else if num.geInt 6 then some 23
        else if num.geInt 5 then some 21
        else none

/-- Character class of the slug regex [^a-z0-9] after lowercasing. -/
def isSlugChar (c : Char) : Bool :=
  (97 ≤ c.toNat && c.toNat ≤ 122) || (48 ≤ c.toNat && c.toNat ≤ 57)

/-- Model of appName.toLowerCase().replace of the slug construction: each
maximal run of non-slug characters becomes one dash. -/
def slugify (s : String) : String :=
  ⟨go false (s.data.map Char.toLower)⟩
where
  go : Bool → List Char → List Char
    | _, [] => []
    | inRun, c :: t =>
      if isSlugChar c then c :: go false t
      else if inRun then go true t
      else '-' :: go true t

/-- Model of s.replace of a single trailing slash. -/
def stripTrailingSlash (s : String) : String :=
  if s.data.getLast? = some '/' then ⟨s.data.dropLast⟩ else s

/-- Link extraction results of one version-detail page, consumed by
getApkPureDownloadUrl. -/
structure DlPageData where
  apkpureLink : Option String
  buttonLink : Option String
  scriptMatch : Option String
  deriving DecidableEq, Repr

/-- Translation of getApkPureDownloadUrl of the v4.4 revision: prefer a
direct d.apkpure.com anchor, then a download button, then a script-text
match; accept only a link containing d.apkpure.com; any fetch error is
caught into null. -/
def getApkPureDownloadUrl (page : Except NetErr DlPageData) : Option String :=
  match page with
  | .error _ => none
  | .ok p =>
    let downloadUrl : Option String :=
      if JS.truthyStr p.apkpureLink then p.apkpureLink
      else if JS.truthyStr p.buttonLink then p.buttonLink
      else p.scriptMatch
    match downloadUrl with
    | some u => if JS.strContains u "d.apkpure.com" then some u else none
    | none => none

/-- Extraction results of the APKPure search page. -/
structure SearchOutcome where
  status : Nat
  pkgMatchLink : Option String
  selectorLink : Option String
  deriving DecidableEq, Repr

/-- One raw row of the versions page (regex captures and link). -/
structure RawEntry where
  androidMatch : Option String
  versionMatch : Option String
  downloadLink : Option String
  deriving DecidableEq, Repr

/-- Extraction results of the versions page: HTTP status, the parsed rows,
and the d.apkpure.com direct links found in the raw page text. -/
structure VersionsOutcome where
  status : Nat
  entries : List RawEntry
  directLinks : List String
  deriving DecidableEq, Repr

/-- A version entry of findOlderVersionFromApkPure. -/
structure PureVersion where
  version : String
  minSdk : Option Int
  minAndroid : Option String
  downloadLink : String
  deriving DecidableEq, Repr

/-- Row-to-entry assembly: needs a truthy download link and version capture;
the Android capture goes through androidVersionToApi; the link is
absolutized. -/
def mkPureVersion (r : RawEntry) : Option PureVersion :=
  if JS.truthyStr r.downloadLink && JS.truthyStr r.versionMatch then
    let minAndroid := r.androidMatch
    some { version := r.versionMatch.getD ""
           minSdk :=
             match minAndroid with
             | some a => androidVersionToApi (some a)
             | none => none
           minAndroid := minAndroid
           downloadLink :=
             let dl := r.downloadLink.getD ""
             if JS.strStartsWith dl "http" then dl else "https://apkpure.com" ++ dl }
  else none

/-- All upstream-call outcomes of one findOlderVersionFromApkPure call: the
two page fetches, the HEAD content length per probed direct link, and the
version-detail page per followed download link. -/
structure PureEnv where
  search : Except NetErr SearchOutcome
  versionsPage : Except NetErr VersionsOutcome
  headContentLength : String → Except NetErr (Option String)
  dlPages : String → Except NetErr DlPageData

/-- The direct-link probing loop: HEAD each candidate, accept the first one
whose declared content length exceeds 5 MB (a real archive rather than an
error page); HEAD failures skip to the next candidate. -/
def probeDirectLinks (head : String → Except NetErr (Option String)) (pkg appName : String) :
    List String → Option ApkResult
  | [] => none
  | url :: rest =>
    match head url with
    | .error _ => probeDirectLinks head pkg appName rest
    | .ok clHeader =>
      match JS.parseIntJS (JS.orElseStr clHeader "0") with
      | some n =>
        if n > 5000000 then
          some { success := true
                 source := some "apkpure_older"
                 downloadUrl := some url
                 packageName := some pkg
                 appName := some appName
                 format := some (if JS.strContains url "XAPK" then "XAPK" else "APK")
                 compatible := some true
                 isOlderVersion := some true
                 note := some "Older version from APKPure" }
        else probeDirectLinks head pkg appName rest
      | none => probeDirectLinks head pkg appName rest

/-- The per-version loop of findOlderVersionFromApkPure over the sorted
entries (the index argument models versions.indexOf(ver) on the sorted
array): an entry with a known fitting minimum SDK is resolved and returned;
an entry with an unknown minimum is tried only from the fourth position on;
failed resolutions move to the next entry. -/
def searchCompatLoop (resolve : String → Option String) (d : V42.DeviceInfo)
    (pkg appName : String) : Nat → List PureVersion → Option ApkResult
  | _, [] => none
  | idx, v :: rest =>
    if JS.truthyInt v.minSdk && decide (v.minSdk.getD 0 ≤ d.apiLevel.getD 0) then
      match resolve v.downloadLink with
      | some url =>
        some { success := true
               source := some "apkpure_older"
               downloadUrl := some url
               packageName := some pkg
               appName := some appName
               version := some v.version
               minSdk := v.minSdk
               format := some (if JS.strContains url "XAPK" then "XAPK" else "APK")
               compatible := some true
               isOlderVersion := some true
               note := some ("Version " ++ v.version ++ " compatible with Android " ++
                 getAndroidVersionName d.apiLevel) }
      | none => searchCompatLoop resolve d pkg appName (idx + 1) rest
    else if !JS.truthyInt v.minSdk && decide (idx > 2) then
      match resolve v.downloadLink with
      | some url =>
        some { success := true
               source := some "apkpure_older"
               downloadUrl := some url
               packageName := some pkg
               appName := some appName
               version := some v.version
               format := some (if JS.strContains url "XAPK" then "XAPK" else "APK")
               compatible := some true
               isOlderVersion := some true
               note := some ("Older version " ++ v.version ++ " (compatibility unknown, may work)") }
      | none => searchCompatLoop resolve d pkg appName (idx + 1) rest
    else searchCompatLoop resolve d pkg appName (idx + 1) rest

/-- The descending version sort of findOlderVersionFromApkPure (stable sort
with the dotted-component comparator of this revision). -/
def sortVersionsDesc (versions : List PureVersion) : List PureVersion :=
  List.insertionSort
    (fun a b => versionSortCmp (jsVersionParts a.version) (jsVersionParts b.version) ≤ 0) versions

/-- Body of findOlderVersionFromApkPure of the v4.4 revision: search page
(403 means a swallowed block), app-page URL determination (package-matching
link, else a plausible selector link, else a synthesized slug URL), versions
page (non-200 means a miss), the direct-link probe loop, then the sorted
per-version loop; the two page fetches are left to the function-level
catch. -/
def findOlderVersionFromApkPureBody (env : PureEnv) (d : V42.DeviceInfo) (pkg appName : String) :
    Except NetErr ApkResult :=
  match env.search with
  | .error e => .error e
  | .ok sp =>
    if sp.status = 403 then .ok { success := false }
    else
      let appPageUrl : String :=
        match sp.pkgMatchLink with
        | some href => href
        | none =>
          match (if JS.truthyStr sp.selectorLink &&
                    !JS.strContains (sp.selectorLink.getD "") "/search" then
                   some (if JS.strStartsWith (sp.selectorLink.getD "") "http" then
                           sp.selectorLink.getD ""
                         else "https://apkpure.com" ++ sp.selectorLink.getD "")
                 else none) with
          | some u => u
          | none => "https://apkpure.com/" ++ slugify appName ++ "/" ++ pkg
      let _versionsUrl := stripTrailingSlash appPageUrl ++ "/versions"
      match env.versionsPage with
      | .error e => .error e
      | .ok vp =>
        if vp.status ≠ 200 then .ok { success := false }
        else
          let versions := vp.entries.filterMap mkPureVersion
          match (if vp.directLinks.length > 1 then
                   probeDirectLinks env.headContentLength pkg appName
                     ((vp.directLinks.drop 1).take 4)
                 else none) with
          | some r => .ok r
          | none =>
            match (if JS.truthyInt d.apiLevel && decide (versions.length > 0) then
                     searchCompatLoop (fun l => getApkPureDownloadUrl (env.dlPages l)) d pkg
                       appName 0 (sortVersionsDesc versions)
                   else none) with
            | some r => .ok r
            | none => .ok { success := false }

/-- findOlderVersionFromApkPure with its function-level catch: any escaped
network error is swallowed into the miss result. -/
def findOlderVersionFromApkPure (env : PureEnv) (d : V42.DeviceInfo) (pkg appName : String) :
    ApkResult :=
  match findOlderVersionFromApkPureBody env d pkg appName with
  | .ok r => r
  | .error _ => { success := false }

/-- Translation of tryApkMirror of the v4.4 revision. -/
def tryApkMirror (search : Except NetErr (Option String)) (pkg : String) : ApkResult :=
  match search with
  | .error _ => { success := false }
  | .ok none => { success := false }
  | .ok (some appLink) =>
    { success := true
      source := some "apkmirror"
      downloadUrl := some ("https://www.apkmirror.com" ++ appLink)
      packageName := some pkg
      note := some "APKMirror page - manual download required" }

/-- All upstream-call outcomes of one v4.4 /apk-url request. -/
structure Env where
  gplayApp : Except NetErr GplayApp
  pure : PureEnv
  xapkHead : Except NetErr Unit
  apkHead : Except NetErr Unit
  mirrorBasic : Except NetErr (Option String)

/-- Body of the v4.4 /apk-url handler: Play-Store minimum lookup, the
mustFindOlderVersion branch decision (the same expression as v4.2), then
either the APKPure older-version scrape with the explicit incompatibility
result (with the manual APKPure search fallback) on a miss, or the
latest-version chain with the manual search-page fallback. -/
def apkUrlBody (env : Env) (pkg : String) (q : V42.Query) : Except NetErr ApkResult :=
  let d := getDeviceInfo q
  let appName : String :=
    match env.gplayApp with
    | .ok info => JS.orElseStr info.title pkg
    | .error _ => pkg
  let minSdkFromStore : Option Int :=
    match env.gplayApp with
    | .ok info =>
      if JS.truthyStr info.androidVersion &&
          !JS.strContains (info.androidVersion.getD "") "Varies"
      then androidVersionToApi info.androidVersion else none
    | .error _ => none
  if d.needsOlderVersion ||
      (JS.truthyInt minSdkFromStore && JS.truthyInt d.apiLevel &&
        decide (minSdkFromStore.getD 0 > d.apiLevel.getD 0)) then
    let olderVersionResult := findOlderVersionFromApkPure env.pure d pkg appName
    if olderVersionResult.success then .ok olderVersionResult
    else
      .ok { success := false
            compatible := some false
            error := some (appName ++
              " requires a newer Android version. Could not find an older compatible version automatically.")
            packageName := some pkg
            appName := some appName
            deviceApiLevel := d.apiLevel
            requiredApiLevel := some
              (if JS.truthyInt minSdkFromStore then minSdkFromStore.getD 0 else 32)
            manualDownload := some
              [("apkpure", "https://apkpure.com/search?q=" ++ JS.encodeURIComponent appName)] }
  else
    match env.xapkHead with
    | .ok _ =>
      .ok { success := true
            source := some "apkpure"
            downloadUrl := some ("https://d.apkpure.com/b/XAPK/" ++ pkg ++ "?version=latest")
            packageName := some pkg
            format := some "XAPK"
            version := some "latest"
            canRetryWithOlderVersion := some true }
    | .error _ =>
      match env.apkHead with
      | .ok _ =>
        .ok { success := true
              source := some "apkpure"
              downloadUrl := some ("https://d.apkpure.com/b/APK/" ++ pkg ++ "?version=latest")
              packageName := some pkg
              format := some "APK"
              version := some "latest"
              canRetryWithOlderVersion := some true }
      | .error _ =>
        let am := tryApkMirror env.mirrorBasic pkg
        if am.success then .ok { am with canRetryWithOlderVersion := some true }
        else
          .ok { success := false
                error := some "Could not find APK download"
                manualDownload := some
                  [("apkpure", "https://apkpure.com/search?q=" ++ pkg),
                   ("apkmirror", "https://www.apkmirror.com/?s=" ++ pkg)]
                packageName := some pkg }

/-- The v4.4 /apk-url handler with its outer try/catch. -/
def apkUrl (env : Env) (pkg : String) (q : V42.Query) : ApkResult :=
  match apkUrlBody env pkg q with
  | .ok r => r
  | .error e => { success := false, error := some e.message }

end V44

/-! ## C2 (amended) and the v4.4 invariant for C1 -/

/-- C2 amended.  In the v4.4 revision the claimed scenario holds up to the
extent of that revision's fallback: device apiLevel 30, metadata reporting
Android 12 (API 31), no override store, catalogs unreachable (the older
branch consults only the APKPure catalog and its search fetch fails) — the
result is success=false, compatible=false, with a manual fallback carrying
the APKPure search URL (only that one catalog's); the v4.2 revision instead
returns a success result pointing at the APKMirror search page. -/
theorem c2_amended (searchErr : NetErr) (vp : Except NetErr V44.VersionsOutcome)
    (hcl : String → Except NetErr (Option String)) (dlp : String → Except NetErr V44.DlPageData)
    (xh ah : Except NetErr Unit) (mb : Except NetErr (Option String)) :
    V44.apkUrl
        { gplayApp := .ok { title := some "Example App", androidVersion := some "12" }
          pure := { search := .error searchErr, versionsPage := vp,
                    headContentLength := hcl, dlPages := dlp }
          xapkHead := xh, apkHead := ah, mirrorBasic := mb }
        "com.example.app" { apiLevel := some "30" } =
      { success := false
        compatible := some false
        error := some
          "Example App requires a newer Android version. Could not find an older compatible version automatically."
        packageName := some "com.example.app"
        appName := some "Example App"
        deviceApiLevel := some 30
        requiredApiLevel := some 31
        manualDownload := some [("apkpure", "https://apkpure.com/search?q=Example%20App")] } :=
  rfl

/-- Witness for C2 amended at a fully concrete environment. -/
theorem c2_amended_witness :
    V44.apkUrl
        { gplayApp := .ok { title := some "Example App", androidVersion := some "12" }
          pure := { search := .error .timeout
                    versionsPage := .ok { status := 200, entries := [], directLinks := [] }
                    headContentLength := fun _ => .error .timeout
                    dlPages := fun _ => .error .timeout }
          xapkHead := .error .timeout, apkHead := .error .timeout
          mirrorBasic := .error .timeout }
        "com.example.app" { apiLevel := some "30" } =
      { success := false
        compatible := some false
        error := some
          "Example App requires a newer Android version. Could not find an older compatible version automatically."
        packageName := some "com.example.app"
        appName := some "Example App"
        deviceApiLevel := some 30
        requiredApiLevel := some 31
        manualDownload := some [("apkpure", "https://apkpure.com/search?q=Example%20App")] } :=
  c2_amended .timeout (.ok { status := 200, entries := [], directLinks := [] })
    (fun _ => .error .timeout) (fun _ => .error .timeout) (.error .timeout) (.error .timeout)
    (.error .timeout)

/-- Every hit of the direct-link probe loop is tagged compatible = true. -/
theorem probeDirectLinks_compatible (head : String → Except NetErr (Option String))
    (pkg appName : String) :
    ∀ (ls : List String) (r : ApkResult),
      V44.probeDirectLinks head pkg appName ls = some r → r.compatible = some true := by
  intro ls
  induction ls with
  | nil =>
    intro r h
    simp [V44.probeDirectLinks] at h
  | cons url rest ih =>
    intro r h
    unfold V44.probeDirectLinks at h
    split at h
    · exact ih r h
    · split at h
      · split at h
        · injection h with h2
          subst h2
          rfl
        · exact ih r h
      · exact ih r h

/-- Every hit of the per-version loop is tagged compatible = true. -/
theorem searchCompatLoop_compatible (resolve : String → Option String) (d : V42.DeviceInfo)
    (pkg appName : String) :
    ∀ (idx : Nat) (ls : List V44.PureVersion) (r : ApkResult),
      V44.searchCompatLoop resolve d pkg appName idx ls = some r → r.compatible = some true := by
  intro idx ls
  induction ls generalizing idx with
  | nil =>
    intro r h
    simp [V44.searchCompatLoop] at h
  | cons v rest ih =>
    intro r h
    unfold V44.searchCompatLoop at h
    split at h
    · split at h
      · injection h with h2
        subst h2
        rfl
      · exact ih (idx + 1) r h
    · split at h
      · split at h
        · injection h with h2
          subst h2
          rfl
        · exact ih (idx + 1) r h
      · exact ih (idx + 1) r h

/-- A successful body result of findOlderVersionFromApkPure never carries
compatible = false (hits are marked compatible = true, misses omit the
field). -/
theorem pureBodyV44_not_incompatible (env : V44.PureEnv) (d : V42.DeviceInfo)
    (pkg appName : String) (r : ApkResult)
    (h : V44.findOlderVersionFromApkPureBody env d pkg appName = .ok r) :
    r.compatible ≠ some false := by
  simp only [V44.findOlderVersionFromApkPureBody] at h
  split at h
  · cases h
  · split at h
    · injection h with h2
      subst h2
      simp
    · split at h
      · cases h
      · split at h
        · injection h with h2
          subst h2
          simp
        · split at h
          next r' heq =>
            injection h with h2
            subst h2
            split at heq
            · rw [probeDirectLinks_compatible _ _ _ _ _ heq]
              simp
            · cases heq
          next heq =>
            split at h
            next r' heq2 =>
              injection h with h2
              subst h2
              split at heq2
              · rw [searchCompatLoop_compatible _ _ _ _ _ _ _ heq2]
                simp
              · cases heq2
            next heq2 =>
              injection h with h2
              subst h2
              simp

/-- The wrapped findOlderVersionFromApkPure never carries compatible = false. -/
theorem findOlderVersionFromApkPureV44_not_incompatible (env : V44.PureEnv)
    (d : V42.DeviceInfo) (pkg appName : String) :
    (V44.findOlderVersionFromApkPure env d pkg appName).compatible ≠ some false := by
  unfold V44.findOlderVersionFromApkPure
  split
  next r heq => exact pureBodyV44_not_incompatible _ _ _ _ _ heq
  next => simp

/-- The v4.4 tryApkMirror result never carries a compatible field. -/
theorem tryApkMirrorV44_compatible (s : Except NetErr (Option String)) (pkg : String) :
    (V44.tryApkMirror s pkg).compatible = none := by
  cases s with
  | error e => rfl
  | ok o => cases o <;> rfl

/-- Invariant of the v4.4 /apk-url body: a returned result with
compatible = false is the older-branch failure result, which has
success = false and carries the manual APKPure search fallback. -/
theorem apkUrlBodyV44_invariant (env : V44.Env) (pkg : String) (q : V42.Query) (r : ApkResult)
    (hok : V44.apkUrlBody env pkg q = .ok r) (h : r.compatible = some false) :
    r.success = false ∧ r.manualDownload ≠ none := by
  simp only [V44.apkUrlBody] at hok
  split at hok
  · split at hok
    · injection hok with h2
      subst h2
      exact absurd h (findOlderVersionFromApkPureV44_not_incompatible _ _ _ _)
    · injection hok with h2
      subst h2
      simp
  · split at hok
    · injection hok with h2
      subst h2
      simp at h
    · split at hok
      · injection hok with h2
        subst h2
        simp at h
      · split at hok
        · injection hok with h2
          subst h2
          rw [tryApkMirrorV44_compatible] at h
          simp at h
        · injection hok with h2
          subst h2
          simp at h

/-- C1 amended.  In the v4.4 revision the claimed invariant holds: every
result of the /apk-url endpoint with compatible = false has success = false
and carries a manual fallback (the APKPure search URL).  In the v4.0
revision, however, the endpoint can return compatible = false together with
success = true and no fallback (the latest-version result annotated with a
compatibility warning), as the counterexample shows. -/
theorem c1_amended (env : V44.Env) (pkg : String) (q : V42.Query)
    (h : (V44.apkUrl env pkg q).compatible = some false) :
    (V44.apkUrl env pkg q).success = false ∧ (V44.apkUrl env pkg q).manualDownload ≠ none := by
  cases hres : V44.apkUrlBody env pkg q with
  | error e =>
    rw [V44.apkUrl, hres] at h
    simp at h
  | ok r =>
    have h' : r.compatible = some false := by
      rw [V44.apkUrl, hres] at h
      exact h
    have hb := apkUrlBodyV44_invariant env pkg q r hres h'
    constructor
    · rw [V44.apkUrl, hres]
      exact hb.1
    · rw [V44.apkUrl, hres]
      exact hb.2

/-- Witness for C1 amended at a concrete v4.4 environment whose result has
compatible = false: the result indeed has success = false and a manual
fallback. -/
theorem c1_amended_witness :
    (V44.apkUrl
        { gplayApp := .ok { title := some "Example App", androidVersion := some "12" }
          pure := { search := .error .refused
                    versionsPage := .ok { status := 200, entries := [], directLinks := [] }
                    headContentLength := fun _ => .error .refused
                    dlPages := fun _ => .error .refused }
          xapkHead := .error .refused, apkHead := .error .refused
          mirrorBasic := .error .refused }
        "com.example.app" { apiLevel := some "30" }).success = false ∧
      (V44.apkUrl
        { gplayApp := .ok { title := some "Example App", androidVersion := some "12" }
          pure := { search := .error .refused
                    versionsPage := .ok { status := 200, entries := [], directLinks := [] }
                    headContentLength := fun _ => .error .refused
                    dlPages := fun _ => .error .refused }
          xapkHead := .error .refused, apkHead := .error .refused
          mirrorBasic := .error .refused }
        "com.example.app" { apiLevel := some "30" }).manualDownload ≠ none :=
  c1_amended _ "com.example.app" { apiLevel := some "30" } rfl

/-! ## C9: upstream failures are swallowed, never propagated -/

/-- C9.  Upstream failures never escape: a thrown network error anywhere in
the v4.2 APKMirror catalog client or the v4.4 APKPure catalog client is
converted by that client's own catch into the plain no-result answer
(success = false), and the v4.2 /apk-url handler body — every one of whose
upstream call sites (metadata lookup, catalog clients, HEAD probes) is
individually guarded — returns a structured result for EVERY combination of
upstream outcomes, so no request ends in an unhandled rejection. -/
theorem c9_upstream_failures_swallowed :
    (∀ (env : V42.MirrorEnv) (d : V42.DeviceInfo) (pkg appName : String) (e : NetErr),
        V42.findOlderVersionApkMirrorBody env d pkg appName = .error e →
        V42.findOlderVersionApkMirror env d pkg appName = { success := false }) ∧
      (∀ (env : V44.PureEnv) (d : V42.DeviceInfo) (pkg appName : String) (e : NetErr),
        V44.findOlderVersionFromApkPureBody env d pkg appName = .error e →
        V44.findOlderVersionFromApkPure env d pkg appName = { success := false }) ∧
      (∀ (env : V42.Env) (pkg : String) (q : V42.Query),
        ∃ r, V42.apkUrlBody env pkg q = Except.ok r) := by
  refine ⟨?_, ?_, ?_⟩
  · intro env d pkg appName e h
    rw [V42.findOlderVersionApkMirror, h]
  · intro env d pkg appName e h
    rw [V44.findOlderVersionFromApkPure, h]
  · intro env pkg q
    suffices hs : (V42.apkUrlBody env pkg q).isOk = true by
      cases hres : V42.apkUrlBody env pkg q with
      | error e => simp [Except.isOk, Except.toBool, hres] at hs
      | ok r => exact ⟨r, rfl⟩
    simp only [V42.apkUrlBody]
    repeat' split
    all_goals rfl

/-- Witness for C9: a timed-out catalog search is reported as a plain miss
by both clients, and the v4.2 handler yields a structured result when every
upstream call fails. -/
theorem c9_witness :
    V42.findOlderVersionApkMirror { search := .error .timeout, appPage := .ok [] }
        { apiLevel := some 30, arch := none, dpi := none, androidVersion := none,
          needsOlderVersion := false }
        "com.example.app" "Example App" = { success := false } ∧
      V44.findOlderVersionFromApkPure
        { search := .error .timeout
          versionsPage := .ok { status := 200, entries := [], directLinks := [] }
          headContentLength := fun _ => .error .timeout
          dlPages := fun _ => .error .timeout }
        { apiLevel := some 30, arch := none, dpi := none, androidVersion := none,
          needsOlderVersion := false }
        "com.example.app" "Example App" = { success := false } ∧
      ∃ r, V42.apkUrlBody
        { gplayApp := .error .timeout
          mirror := { search := .error .timeout, appPage := .ok [] }
          pure := { search := .error .timeout, versionsPage := .ok [] }
          xapkHead := .error .timeout, apkHead := .error .timeout
          mirrorBasic := .error .timeout }
        "com.example.app" { } = Except.ok r :=
  ⟨c9_upstream_failures_swallowed.1 _ _ _ _ .timeout rfl,
   c9_upstream_failures_swallowed.2.1 _ _ _ _ .timeout rfl,
   c9_upstream_failures_swallowed.2.2 _ _ _⟩
